import Mathlib

/-!
# Ocean Explorer: section navigation and deep-sea visual effects

A shallow embedding of `src/script.js`.

* JavaScript numbers are modelled by exact rationals (`ℚ`); the section index,
  which is only ever assigned array positions and stepped by one, is an `Int`.
* An event handler that dereferences a missing page element throws a
  `TypeError`.  Handlers therefore return `Except σ σ`: `.ok s` is normal
  completion in state `s`, `.error s` is an uncaught exception with the state
  as it was mutated up to the throw (the page carries on from that state).
* `Math.random`, `Math.sin`, `Date.now` and the window size are inputs of a tick.
-/

namespace OceanExplorer

/-! ## Page elements -/

/-- The part of a section element that the script reads or writes. -/
structure SectionElement where
  /-- Whether `classList` contains `"hidden"`. -/
  hidden : Bool
  /-- Inline `style.opacity`, `none` while it was never assigned. -/
  opacity : Option ℚ
  /-- Inline `style.transform`, `none` while it was never assigned. -/
  transform : Option String
  deriving DecidableEq, Repr

/-- The section elements of the page, keyed by element id. -/
abbrev Document := List (String × SectionElement)

/-- Lookup as done by `document.getElementById`: the first element with the id, or
`none` (JavaScript `null`). -/
def getElementById : Document → String → Option SectionElement
  | [], _ => none
  | (k, el) :: rest, id => if k = id then some el else getElementById rest id

/-- Write back the element with the given id (the first one, as `getElementById`). -/
def setElement : Document → String → SectionElement → Document
  | [], _, _ => []
  | (k, old) :: rest, id, el =>
    if k = id then (k, el) :: rest else (k, old) :: setElement rest id el

/-- The state a handler ended in, whether it completed or threw. -/
def stateOf {σ : Type} : Except σ σ → σ
  | .ok s => s
  | .error s => s

end OceanExplorer

/-! ## OceanExplorer: the navigation state -/

/-- The mutable state of the `OceanExplorer` object and of the closures of
`setupTouchNavigation`, with the page elements it acts on. -/
structure OceanExplorer where
  /-- Field `this.currentSectionIndex`. -/
  currentSectionIndex : Int
  /-- The section elements of the page. -/
  document : OceanExplorer.Document
  /-- For each `.nav-dot`, whether its `classList` contains `"active"`. -/
  navDots : List Bool
  touchStartX : ℚ
  touchStartY : ℚ
  touchEndX : ℚ
  touchEndY : ℚ
  /-- Targets of the `setTimeout` callbacks scheduled by `showSection`, oldest first. -/
  pendingReveals : List String
  /-- Number of calls of `audioSystem.playTransitionSound` so far. -/
  transitionSounds : Nat
  deriving DecidableEq, Repr

namespace OceanExplorer

/-- Field `this.sections` of the constructor; it is never reassigned. -/
def sections : List String :=
  ["intro", "overview", "gallery", "zones", "deepsea", "quiz", "about"]

/-- Search of `Array.prototype.indexOf` from position `i` on. -/
def indexOfFrom : List String → String → Int → Int
  | [], _, _ => -1
  | y :: ys, x, i => if y = x then i else indexOfFrom ys x (i + 1)

/-- JavaScript `xs.indexOf(x)`: the first position of `x`, or `-1`. -/
def indexOf (xs : List String) (x : String) : Int := indexOfFrom xs x 0

/-- The id that `this.sections[i]` denotes when passed to `getElementById`: an
out-of-range read gives `undefined`, which is looked up as the string
`"undefined"`. -/
def sectionAt (i : Int) : String :=
  if 0 ≤ i then (sections.get? i.toNat).getD "undefined" else "undefined"

/-- The `forEach` loop of `showSection`: every section but `intro` gets the class
`hidden` and opacity 0.  A missing element makes `section.classList` throw. -/
def hideSections : List String → Document → Except Document Document
  | [], doc => .ok doc
  | sectionId :: rest, doc =>
    if sectionId ≠ "intro" then
      match getElementById doc sectionId with
      | none => .error doc
      | some el =>
        hideSections rest (setElement doc sectionId { el with hidden := true, opacity := some 0 })
    else hideSections rest doc

/-- Method `showSection(id)`. -/
def showSection (s : OceanExplorer) (id : String) : Except OceanExplorer OceanExplorer :=
  match hideSections sections s.document with
  | .error doc => .error { s with document := doc }
  | .ok doc =>
    match getElementById doc id with
    | none => .error { s with document := doc }
    | some target =>
      .ok { s with
        document := setElement doc id { target with hidden := false }
        pendingReveals := s.pendingReveals ++ [id]
        transitionSounds := s.transitionSounds + 1 }

/-- The callback that `showSection` hands to `setTimeout`, for the oldest pending
one: the target's opacity and transform take their resting values. -/
def revealTimeout (s : OceanExplorer) : OceanExplorer :=
  match s.pendingReveals with
  | [] => s
  | id :: rest =>
    match getElementById s.document id with
    | none => { s with pendingReveals := rest }
    | some target =>
      { s with
        document := setElement s.document id
          { target with opacity := some 1, transform := some "translateY(0)" }
        pendingReveals := rest }

/-- Method `updateNavigation`: dot `index` is active exactly when it is the current one. -/
def updateNavigation (s : OceanExplorer) : OceanExplorer :=
  { s with
    navDots := (List.range s.navDots.length).map
      (fun index => decide ((index : Int) = s.currentSectionIndex)) }

/-- Method `navigateToSection(sectionName)`. -/
def navigateToSection (s : OceanExplorer) (sectionName : String) :
    Except OceanExplorer OceanExplorer :=
  let sectionIndex := indexOf sections sectionName
  if sectionIndex ≠ -1 then
    (showSection { s with currentSectionIndex := sectionIndex } sectionName).map updateNavigation
  else .ok s

/-- Click listener of the enter button. -/
def enterClick (s : OceanExplorer) : Except OceanExplorer OceanExplorer :=
  (showSection s "overview").map
    (fun s1 => updateNavigation { s1 with currentSectionIndex := 1 })

/-- Click listener of nav dot number `index`.  For a dot beyond the sections,
`this.sections[index]` is `undefined`, whose `indexOf` is `-1`: nothing happens. -/
def navDotClick (s : OceanExplorer) (index : Nat) : Except OceanExplorer OceanExplorer :=
  match sections.get? index with
  | some sectionName => navigateToSection s sectionName
  | none => .ok s

/-- The `keydown` listener of `setupKeyboardNavigation`. -/
def keydown (s : OceanExplorer) (key : String) : Except OceanExplorer OceanExplorer :=
  if key = "ArrowRight" ∨ key = "ArrowDown" then
    if s.currentSectionIndex < (sections.length : Int) - 1 then
      let s1 := { s with currentSectionIndex := s.currentSectionIndex + 1 }
      (showSection s1 (sectionAt s1.currentSectionIndex)).map updateNavigation
    else .ok s
  else if key = "ArrowLeft" ∨ key = "ArrowUp" then
    if s.currentSectionIndex > 0 then
      let s1 := { s with currentSectionIndex := s.currentSectionIndex - 1 }
      (showSection s1 (sectionAt s1.currentSectionIndex)).map updateNavigation
    else .ok s
  else .ok s

/-- The closure `this.handleSwipe` of `setupTouchNavigation`. -/
def handleSwipe (s : OceanExplorer) : Except OceanExplorer OceanExplorer :=
  let deltaX := s.touchEndX - s.touchStartX
  let deltaY := s.touchEndY - s.touchStartY
  let minSwipeDistance : ℚ := 50
  if |deltaX| > |deltaY| then
    if |deltaX| > minSwipeDistance then
      if deltaX > 0 then
        if s.currentSectionIndex > 0 then
          let s1 := { s with currentSectionIndex := s.currentSectionIndex - 1 }
          (showSection s1 (sectionAt s1.currentSectionIndex)).map updateNavigation
        else .ok s
      else
        if s.currentSectionIndex < (sections.length : Int) - 1 then
          let s1 := { s with currentSectionIndex := s.currentSectionIndex + 1 }
          (showSection s1 (sectionAt s1.currentSectionIndex)).map updateNavigation
        else .ok s
    else .ok s
  else .ok s

/-- The `touchstart` listener. -/
def touchstart (s : OceanExplorer) (screenX screenY : ℚ) : OceanExplorer :=
  { s with touchStartX := screenX, touchStartY := screenY }

/-- The `touchend` listener. -/
def touchend (s : OceanExplorer) (screenX screenY : ℚ) :
    Except OceanExplorer OceanExplorer :=
  handleSwipe { s with touchEndX := screenX, touchEndY := screenY }

/-- The inputs that drive the navigation state. -/
inductive Event where
  | enterClick
  | navDotClick (index : Nat)
  | navigateToSection (sectionName : String)
  | keydown (key : String)
  | touchstart (screenX screenY : ℚ)
  | touchend (screenX screenY : ℚ)
  | revealTimeout
  deriving DecidableEq, Repr

/-- Dispatch of one event to its listener. -/
def handle (s : OceanExplorer) : Event → Except OceanExplorer OceanExplorer
  | .enterClick => enterClick s
  | .navDotClick index => navDotClick s index
  | .navigateToSection sectionName => navigateToSection s sectionName
  | .keydown key => keydown s key
  | .touchstart x y => .ok (touchstart s x y)
  | .touchend x y => touchend s x y
  | .revealTimeout => .ok (revealTimeout s)

/-- The state after a sequence of events; an exception ends only its own handler. -/
def run (s : OceanExplorer) (events : List Event) : OceanExplorer :=
  events.foldl (fun st ev => stateOf (handle st ev)) s

/-- The state built by the constructor and `init()` on a page with the given
section elements and `dots` nav dots. -/
def initial (doc : Document) (dots : Nat) : OceanExplorer :=
  updateNavigation
    { currentSectionIndex := 0
      document := doc
      navDots := List.replicate dots false
      touchStartX := 0
      touchStartY := 0
      touchEndX := 0
      touchEndY := 0
      pendingReveals := []
      transitionSounds := 0 }

/-- A page on which all seven sections exist, only `intro` shown. -/
def samplePage : Document :=
  sections.map (fun id => (id, { hidden := decide (id ≠ "intro"), opacity := none, transform := none }))

/-- The sample page after a click on nav dot 3 (`zones`) and a touch starting at
screen position (100, 40). -/
def touchedAtZones : OceanExplorer :=
  run (initial samplePage 7) [.navDotClick 3, .touchstart 100 40]

end OceanExplorer

/-! ## DeepSeaSystem: particles and click ripples -/

/-- A particle object as built by `initDeepSea`. -/
structure Particle where
  type : String
  x : ℚ
  y : ℚ
  r : ℚ
  color : String
  vy : ℚ
  vx : ℚ
  opacity : ℚ
  glow : Bool
  phase : ℚ
  deriving DecidableEq, Repr

/-- A ripple object as pushed onto `clickWaves` by the click listener. -/
structure ClickWave where
  x : ℚ
  y : ℚ
  radius : ℚ
  age : ℚ
  deriving DecidableEq, Repr

/-- The mutable fields of the `DeepSeaSystem` object. -/
structure DeepSeaSystem where
  deepSeaActive : Bool
  mouseX : ℚ
  mouseY : ℚ
  clickWaves : List ClickWave
  depthLevel : ℚ
  particles : List Particle
  deriving DecidableEq, Repr

namespace DeepSeaSystem

/-- What one call of `update` reads from its environment. -/
structure Tick where
  /-- Value of `Date.now()`. -/
  currentTime : ℚ
  /-- Value of `window.innerWidth`. -/
  width : ℚ
  /-- Value of `window.innerHeight`. -/
  height : ℚ
  /-- The function `Math.sin`. -/
  sin : ℚ → ℚ
  /-- The value returned by the `n`-th call of `Math.random()` during this `update`. -/
  random : Nat → ℚ

/-- A `circle.particle` element with the attributes `draw` gives it. -/
structure ParticleCircle where
  cx : ℚ
  cy : ℚ
  r : ℚ
  fill : String
  opacity : ℚ
  filter : String
  deriving DecidableEq, Repr

/-- A `.wave` circle with the attributes `draw` gives it (its fill `none`, stroke
`#00ffff` and stroke width 2 are constants). -/
structure WaveCircle where
  cx : ℚ
  cy : ℚ
  r : ℚ
  opacity : ℚ
  deriving DecidableEq, Repr

/-- The circles on the canvas after a call of `draw`. -/
structure Drawing where
  particleCircles : List ParticleCircle
  waveCircles : List WaveCircle
  deriving DecidableEq, Repr

/-- What one active `update` writes to the page. -/
structure Frame where
  /-- Text of the `current-depth` element (when the page has one). -/
  depthText : Int
  /-- Result of the call `this.draw()`. -/
  drawing : Drawing
  deriving DecidableEq, Repr

/-- The constructor. -/
def new : DeepSeaSystem :=
  { deepSeaActive := false
    mouseX := 0
    mouseY := 0
    clickWaves := []
    depthLevel := 0
    particles := [] }

/-- The `IntersectionObserver` callback: each entry in turn sets the flag. -/
def observe (s : DeepSeaSystem) (entries : List Bool) : DeepSeaSystem :=
  entries.foldl (fun st isIntersecting => { st with deepSeaActive := isIntersecting }) s

/-- The `mousemove` listener. -/
def mousemove (s : DeepSeaSystem) (clientX clientY rectLeft rectTop : ℚ) : DeepSeaSystem :=
  { s with mouseX := clientX - rectLeft, mouseY := clientY - rectTop }

/-- The `click` listener.  The second component tells whether `playBubbleSound`
was called. -/
def click (s : DeepSeaSystem) (clientX clientY rectLeft rectTop masterVolume : ℚ) :
    DeepSeaSystem × Bool :=
  ({ s with
      clickWaves := s.clickWaves ++
        [{ x := clientX - rectLeft, y := clientY - rectTop, radius := 0, age := 0 }] },
   decide (masterVolume > 0))

/-- The motion part of the particle loop of `update`: basic movement, mouse
attraction of bioluminescent particles, sine wave of bubbles.  The test
`Math.sqrt(dx * dx + dy * dy) < 100` is decided on the squares. -/
def moveParticle (t : Tick) (mouseX mouseY : ℚ) (p : Particle) : Particle :=
  let p1 := { p with y := p.y + p.vy }
  let p2 := { p1 with x := p1.x + p1.vx }
  let p3 :=
    if p2.type = "bioluminescent" then
      let dx := mouseX - p2.x
      let dy := mouseY - p2.y
      if dx * dx + dy * dy < 100 * 100 then
        { p2 with x := p2.x + dx * (1 / 100), y := p2.y + dy * (1 / 100) }
      else p2
    else p2
  if p3.type = "bubbles" then
    { p3 with x := p3.x + t.sin (p3.phase + t.currentTime * (1 / 1000)) * (1 / 2) }
  else p3

/-- First reset of the particle loop: a particle above the top edge by more than 20
goes to `height + 20` at a random `x`.  `k` counts the calls of `Math.random()`. -/
def wrapTop (t : Tick) (k : Nat) (p : Particle) : Particle × Nat :=
  if p.y < -20 then
    ({ p with y := t.height + 20, x := t.random k * t.width }, k + 1)
  else (p, k)

/-- Second reset of the particle loop: a particle beyond the left or right edge by
more than 20 gets a random `x`. -/
def wrapSides (t : Tick) (k : Nat) (p : Particle) : Particle × Nat :=
  if p.x < -20 ∨ p.x > t.width + 20 then
    ({ p with x := t.random k * t.width }, k + 1)
  else (p, k)

/-- Both resets, in the order of the source. -/
def wrapParticle (t : Tick) (k : Nat) (p : Particle) : Particle × Nat :=
  let a := wrapTop t k p
  wrapSides t a.2 a.1

/-- Last statement of the particle loop: the glow animation. -/
def glowParticle (t : Tick) (p : Particle) : Particle :=
  if p.glow then
    { p with opacity := 6 / 10 + t.sin (t.currentTime * (3 / 1000) + p.phase) * (4 / 10) }
  else p

/-- The body of the particle loop of `update` for one particle; `k` is the number of
`Math.random()` calls made so far in this `update`, the second component the number
after this particle. -/
def updateParticle (t : Tick) (mouseX mouseY : ℚ) (k : Nat) (p : Particle) : Particle × Nat :=
  let w := wrapParticle t k (moveParticle t mouseX mouseY p)
  (glowParticle t w.1, w.2)

/-- The loop `this.particles.forEach` of `update`. -/
def updateParticles (t : Tick) (mouseX mouseY : ℚ) : Nat → List Particle → List Particle
  | _, [] => []
  | k, p :: ps =>
    let q := updateParticle t mouseX mouseY k p
    q.1 :: updateParticles t mouseX mouseY q.2 ps

/-- The `filter` over `clickWaves` in `update`: the callback first ages the wave in
place, then keeps it when its age is below 100. -/
def filterWaves : List ClickWave → List ClickWave
  | [] => []
  | wave :: rest =>
    let aged := { wave with age := wave.age + 1 }
    let grown := { aged with radius := aged.radius + 2 }
    if grown.age < 100 then grown :: filterWaves rest else filterWaves rest

/-- The opacity attribute `draw` computes for a wave: `Math.max(0, 1 - d.age / 100)`. -/
def waveOpacity (age : ℚ) : ℚ := max 0 (1 - age / 100)

/-- Method `draw`: the data joins leave one circle per particle and one per wave, in
order. -/
def draw (s : DeepSeaSystem) : Drawing :=
  { particleCircles := s.particles.map (fun d =>
      { cx := d.x, cy := d.y, r := d.r, fill := d.color, opacity := d.opacity,
        filter := if d.glow then "url(#glow)" else "none" })
    waveCircles := s.clickWaves.map (fun d =>
      { cx := d.x, cy := d.y, r := d.radius, opacity := waveOpacity d.age }) }

/-- Method `update`.  The second component is `none` when the call returned before
writing anything to the page. -/
def update (s : DeepSeaSystem) (t : Tick) : DeepSeaSystem × Option Frame :=
  if !s.deepSeaActive then (s, none)
  else
    let s1 := { s with particles := updateParticles t s.mouseX s.mouseY 0 s.particles }
    let s2 := { s1 with clickWaves := filterWaves s1.clickWaves }
    let s3 := { s2 with depthLevel := t.sin (t.currentTime * (5 / 10000)) * 500 + 1000 }
    (s3, some { depthText := ⌊|s3.depthLevel| + 1 / 2⌋, drawing := draw s3 })

/-- The state after consecutive calls of `update`, one per tick. -/
def updates (s : DeepSeaSystem) (ticks : List Tick) : DeepSeaSystem :=
  ticks.foldl (fun st t => (update st t).1) s

/-- The inputs that drive the deep-sea state. -/
inductive Event where
  | observe (entries : List Bool)
  | mousemove (clientX clientY rectLeft rectTop : ℚ)
  | click (clientX clientY rectLeft rectTop masterVolume : ℚ)
  | frame (t : Tick)

/-- Dispatch of one event. -/
def handle (s : DeepSeaSystem) : Event → DeepSeaSystem
  | .observe entries => observe s entries
  | .mousemove cx cy l tp => mousemove s cx cy l tp
  | .click cx cy l tp v => (click s cx cy l tp v).1
  | .frame t => (update s t).1

/-- The state after a sequence of events. -/
def run (s : DeepSeaSystem) (events : List Event) : DeepSeaSystem :=
  events.foldl handle s

/-- The number of `update` calls in the sequence that run while the system is active. -/
def activeFrames : DeepSeaSystem → List Event → Nat
  | _, [] => 0
  | s, ev :: rest =>
    (match ev with
      | .frame _ => if s.deepSeaActive then 1 else 0
      | _ => 0) + activeFrames (handle s ev) rest

/-- The ripple update in the words of the specification, first half: age goes up by 1
and radius by 2. -/
def ageRipple (w : ClickWave) : ClickWave :=
  { w with age := w.age + 1, radius := w.radius + 2 }

/-- The ripple update in the words of the specification: age every ripple, then drop
every ripple with age at least 100. -/
def advanceRipples (ws : List ClickWave) : List ClickWave :=
  (ws.map ageRipple).filter (fun w => !decide (w.age ≥ 100))

/-- A stand-in for `Math.sin` that is right at 0, the only argument at which the sample
ticks below evaluate it for sample particles of phase 0. -/
def sinAtZero : ℚ → ℚ := fun _ => 0

/-- A tick at `Date.now() = 0` in an 800 by 400 window, every random draw being 1/2. -/
def sampleTick : Tick :=
  { currentTime := 0, width := 800, height := 400, sin := sinAtZero, random := fun _ => 1 / 2 }

/-- An active system with two ripples, of ages 98 and 99. -/
def oldRipples : DeepSeaSystem :=
  { new with
    deepSeaActive := true
    clickWaves := [{ x := 10, y := 20, radius := 196, age := 98 },
                   { x := 30, y := 40, radius := 198, age := 99 }] }

/-- An active system without particles or ripples. -/
def activeSea : DeepSeaSystem := { new with deepSeaActive := true }

/-- An active system holding just the given particle, the mouse at the given place. -/
def seaWith (p : Particle) (mouseX mouseY : ℚ) : DeepSeaSystem :=
  { activeSea with mouseX := mouseX, mouseY := mouseY, particles := [p] }

/-- A debris particle at (100, 500), below the bottom edge of the 800 by 400 sample
window by more than 20 (as after the window was made smaller), rising by 0.3 a tick. -/
def sunkDebris : Particle :=
  { type := "debris", x := 100, y := 500, r := 2, color := "#8b4513", vy := -3 / 10,
    vx := 0, opacity := 1 / 2, glow := false, phase := 0 }

/-- A debris particle at (100, -19.9) that the next movement takes above -20. -/
def risingDebris : Particle :=
  { type := "debris", x := 100, y := -199 / 10, r := 2, color := "#8b4513", vy := -3 / 10,
    vx := 0, opacity := 1 / 2, glow := false, phase := 0 }

/-- A debris particle at rest at (100, 100). -/
def restingDebris : Particle :=
  { type := "debris", x := 100, y := 100, r := 2, color := "#8b4513", vy := 0,
    vx := 0, opacity := 1 / 2, glow := false, phase := 0 }

/-- A bioluminescent particle at (100, 100) with both velocities 0. -/
def restingGlow : Particle :=
  { type := "bioluminescent", x := 100, y := 100, r := 2, color := "#00ff00", vy := 0,
    vx := 0, opacity := 4 / 5, glow := true, phase := 0 }

end DeepSeaSystem

/-! ## DeepSeaSystem: creation of the particles -/

namespace DeepSeaSystem

/-- One entry of the table `particleTypes` of `initDeepSea`. -/
structure ParticleConfig where
  count : Nat
  size : ℚ × ℚ
  speed : ℚ × ℚ
  colors : List String
  opacity : ℚ × ℚ
  /-- Field `glow`; `none` for an entry that has none. -/
  glow : Option Bool
  deriving DecidableEq, Repr

/-- The table `particleTypes` of `initDeepSea`, in the order of its keys. -/
def particleTypes : List (String × ParticleConfig) :=
  [("bubbles",
      { count := 30, size := (2, 8), speed := (-3 / 10, -8 / 10),
        colors := ["#00ffff", "#1e90ff", "#87ceeb"], opacity := (4 / 10, 8 / 10),
        glow := none }),
   ("bioluminescent",
      { count := 15, size := (1, 4), speed := (-1 / 10, -3 / 10),
        colors := ["#00ff00", "#ffff00", "#ff00ff", "#00ffff"], opacity := (6 / 10, 1),
        glow := some true }),
   ("debris",
      { count := 20, size := (1, 3), speed := (-2 / 10, -5 / 10),
        colors := ["#8b4513", "#654321", "#2f1b14"], opacity := (3 / 10, 6 / 10),
        glow := none })]

/-- What `initDeepSea` reads from its environment. -/
structure Setup where
  /-- Value of `window.innerWidth`. -/
  width : ℚ
  /-- Value of `window.innerHeight`. -/
  height : ℚ
  /-- Value of `Math.PI`. -/
  pi : ℚ
  /-- The value returned by the `n`-th call of `Math.random()` during `initDeepSea`. -/
  random : Nat → ℚ

/-- The expression `config.colors[Math.floor(u * config.colors.length)]`; a read outside
the array gives `undefined`. -/
def pickColor (colors : List String) (u : ℚ) : String :=
  if 0 ≤ ⌊u * (colors.length : ℚ)⌋ then
    (colors.get? ⌊u * (colors.length : ℚ)⌋.toNat).getD "undefined"
  else "undefined"

/-- The object literal `particle` of `initDeepSea`; `k` is the number of `Math.random()`
calls made before it, and it makes eight. -/
def createParticle (e : Setup) (type : String) (config : ParticleConfig) (k : Nat) : Particle :=
  { type := type
    x := e.random k * e.width
    y := e.random (k + 1) * e.height
    r := e.random (k + 2) * (config.size.2 - config.size.1) + config.size.1
    color := pickColor config.colors (e.random (k + 3))
    vy := e.random (k + 4) * (config.speed.2 - config.speed.1) + config.speed.1
    vx := (e.random (k + 5) - 1 / 2) * (2 / 10)
    opacity := e.random (k + 6) * (config.opacity.2 - config.opacity.1) + config.opacity.1
    glow := config.glow.getD false
    phase := e.random (k + 7) * e.pi * 2 }

/-- The loop `for (let i = 0; i < config.count; i++)` with `n` rounds still to go: the
particles it pushes, in order. -/
def createLoop (e : Setup) (type : String) (config : ParticleConfig) : Nat → Nat → List Particle
  | 0, _ => []
  | n + 1, k => createParticle e type config k :: createLoop e type config n (k + 8)

/-- The loop `Object.keys(particleTypes).forEach`: the particles pushed for all entries
of the table, in order. -/
def createAll (e : Setup) : List (String × ParticleConfig) → Nat → List Particle
  | [], _ => []
  | (type, config) :: rest, k =>
    createLoop e type config config.count k ++ createAll e rest (k + 8 * config.count)

/-- The particle creation of `initDeepSea` for a given table. -/
def initParticles (s : DeepSeaSystem) (e : Setup) (types : List (String × ParticleConfig)) :
    DeepSeaSystem :=
  { s with particles := s.particles ++ createAll e types 0 }

/-- Method `initDeepSea`, as far as it changes the object: it pushes the particles. -/
def initDeepSea (s : DeepSeaSystem) (e : Setup) : DeepSeaSystem :=
  initParticles s e particleTypes

/-- A setup in an 800 by 400 window, every random draw being 1/2. -/
def sampleSetup : Setup :=
  { width := 800, height := 400, pi := 3141592653589793 / 1000000000000000,
    random := fun _ => 1 / 2 }

/-- An active system holding the three resting and moving sample particles and the
two old ripples. -/
def busySea : DeepSeaSystem :=
  { oldRipples with
    mouseX := 150
    mouseY := 100
    particles := [restingGlow, sunkDebris, risingDebris] }

end DeepSeaSystem

/-! ## QuizSystem -/

/-- The mutable fields of the `QuizSystem` object. -/
structure QuizSystem where
  currentQuestionIndex : Int
  score : Int
  quizActive : Bool
  deriving DecidableEq, Repr

namespace QuizSystem

/-- An entry of `this.questions`: its answers and the index of the right one (the
question and explanation texts are only displayed). -/
structure Question where
  answers : List String
  correct : Int
  deriving DecidableEq, Repr

/-- Field `this.questions` of the constructor. -/
def questions : List Question :=
  [{ answers := ["Blue Whale", "Vaquita", "Great White Shark", "Giant Pacific Octopus"],
     correct := 1 },
   { answers := ["Great White Shark", "Giant Pacific Octopus", "Blue Whale",
       "Hawksbill Sea Turtle"],
     correct := 1 },
   { answers := ["Giant Squid", "Great White Shark", "Blue Whale", "Giant Pacific Octopus"],
     correct := 2 },
   { answers := ["All sea turtles", "Hawksbill Sea Turtle", "Green Sea Turtle",
       "Loggerhead Sea Turtle"],
     correct := 1 },
   { answers := ["Great White Shark", "Giant Squid", "Blue Whale", "Vaquita"], correct := 1 },
   { answers := ["Epipelagic", "Mesopelagic", "Bathypelagic", "Abyssopelagic"],
     correct := 2 },
   { answers := ["1", "2", "3", "4"], correct := 2 },
   { answers := ["Giant Squid", "Great White Shark", "Blue Whale", "Vaquita"], correct := 1 },
   { answers := ["Abyssopelagic", "Bathypelagic", "Mesopelagic", "Epipelagic"],
     correct := 3 },
   { answers := ["Vaquita", "Blue Whale", "Great White Shark", "Hawksbill Sea Turtle"],
     correct := 1 }]

/-- Which of the quiz elements the page has.  The methods only write to these elements;
a write to a missing one throws. -/
structure Page where
  startQuiz : Bool
  quizScore : Bool
  questionText : Bool
  quizAnswers : Bool
  nextQuestion : Bool
  quizQuestion : Bool
  restartQuiz : Bool
  scoreValue : Bool
  scoreFeedback : Bool
  deriving DecidableEq, Repr

/-- The read `this.questions[i]`, `none` for `undefined`. -/
def questionAt (i : Int) : Option Question :=
  if 0 ≤ i then questions.get? i.toNat else none

/-- The constructor. -/
def new : QuizSystem :=
  { currentQuestionIndex := 0, score := 0, quizActive := false }

/-- Method `showQuestion`: whether it runs to its end.  It changes no field of the
object. -/
def showQuestion (page : Page) (s : QuizSystem) : Bool :=
  match questionAt s.currentQuestionIndex with
  | none => false
  | some _ => page.questionText && page.quizAnswers && page.nextQuestion

/-- Method `showQuizResults`: whether it runs to its end.  It changes no field of the
object. -/
def showQuizResults (page : Page) : Bool :=
  page.quizQuestion && page.quizAnswers && page.nextQuestion && page.quizScore &&
    page.restartQuiz && page.scoreValue && page.scoreFeedback

/-- Method `startQuiz`. -/
def startQuiz (page : Page) (s : QuizSystem) : Except QuizSystem QuizSystem :=
  let s1 := { s with currentQuestionIndex := 0 }
  let s2 := { s1 with score := 0 }
  let s3 := { s2 with quizActive := true }
  if showQuestion page s3 then
    if page.startQuiz && page.quizScore then .ok s3 else .error s3
  else .error s3

/-- Method `selectAnswer`; `selectedIndex` is the result of `parseInt`, `none` for `NaN`.
When `this.questions[...]` is `undefined`, reading its `correct` throws, after the flag
was cleared and before the score is touched. -/
def selectAnswer (s : QuizSystem) (selectedIndex : Option Int) :
    Except QuizSystem QuizSystem :=
  if !s.quizActive then .ok s
  else
    let s1 := { s with quizActive := false }
    match questionAt s.currentQuestionIndex with
    | none => .error s1
    | some question =>
      if selectedIndex = some question.correct then .ok { s1 with score := s1.score + 1 }
      else .ok s1

/-- Method `nextQuestion`. -/
def nextQuestion (page : Page) (s : QuizSystem) : Except QuizSystem QuizSystem :=
  let s1 := { s with currentQuestionIndex := s.currentQuestionIndex + 1 }
  if s1.currentQuestionIndex < (questions.length : Int) then
    if showQuestion page s1 then .ok { s1 with quizActive := true } else .error s1
  else
    if showQuizResults page then .ok s1 else .error s1

/-- Method `restartQuiz`: the element writes come first, the fields are reset after. -/
def restartQuiz (page : Page) (s : QuizSystem) : Except QuizSystem QuizSystem :=
  if page.quizQuestion && page.quizAnswers && page.quizScore && page.restartQuiz &&
      page.startQuiz then
    .ok { currentQuestionIndex := 0, score := 0, quizActive := false }
  else .error s

/-- The inputs that drive the quiz. -/
inductive Event where
  | startQuiz
  | selectAnswer (selectedIndex : Option Int)
  | nextQuestion
  | restartQuiz
  deriving DecidableEq, Repr

/-- Dispatch of one event to its listener. -/
def handle (page : Page) (s : QuizSystem) : Event → Except QuizSystem QuizSystem
  | .startQuiz => startQuiz page s
  | .selectAnswer selectedIndex => selectAnswer s selectedIndex
  | .nextQuestion => nextQuestion page s
  | .restartQuiz => restartQuiz page s

/-- The state after a sequence of events; an exception ends only its own handler. -/
def run (page : Page) (s : QuizSystem) (events : List Event) : QuizSystem :=
  events.foldl (fun st ev => OceanExplorer.stateOf (handle page st ev)) s

/-- A page with all quiz elements. -/
def fullPage : Page :=
  { startQuiz := true, quizScore := true, questionText := true, quizAnswers := true,
    nextQuestion := true, quizQuestion := true, restartQuiz := true, scoreValue := true,
    scoreFeedback := true }

end QuizSystem

/-! ## Navigation: the section index -/

namespace OceanExplorer

theorem indexOfFrom_range (xs : List String) (x : String) (i : Int) :
    indexOfFrom xs x i = -1 ∨ (i ≤ indexOfFrom xs x i ∧ indexOfFrom xs x i < i + xs.length) := by
  induction xs generalizing i with
  | nil => left; rfl
  | cons y ys ih =>
    unfold indexOfFrom
    split
    · right
      simp only [List.length_cons, Nat.cast_add, Nat.cast_one]
      omega
    · rcases ih (i + 1) with h | h
      · left; exact h
      · right
        simp only [List.length_cons, Nat.cast_add, Nat.cast_one]
        omega

theorem indexOf_sections_range (x : String) :
    indexOf sections x = -1 ∨ (0 ≤ indexOf sections x ∧ indexOf sections x < 7) := by
  have h := indexOfFrom_range sections x 0
  simpa [indexOf, sections] using h

theorem showSection_index (s : OceanExplorer) (id : String) :
    (stateOf (showSection s id)).currentSectionIndex = s.currentSectionIndex := by
  unfold showSection
  cases hideSections sections s.document with
  | error d => rfl
  | ok d =>
    simp only
    cases getElementById d id <;> rfl

theorem shown_index (s : OceanExplorer) (id : String) :
    (stateOf ((showSection s id).map updateNavigation)).currentSectionIndex
      = s.currentSectionIndex := by
  have h := showSection_index s id
  cases hr : showSection s id with
  | error e => rw [hr] at h; simpa [Except.map, stateOf] using h
  | ok e => rw [hr] at h; simpa [Except.map, stateOf, updateNavigation] using h

theorem navigateToSection_index (s : OceanExplorer) (sectionName : String) :
    (stateOf (navigateToSection s sectionName)).currentSectionIndex =
      if indexOf sections sectionName ≠ -1 then indexOf sections sectionName
      else s.currentSectionIndex := by
  unfold navigateToSection
  by_cases h : indexOf sections sectionName = -1
  · simp [h, stateOf]
  · simp only [ne_eq, h, not_false_eq_true, if_true]
    rw [shown_index]

theorem keydown_index (s : OceanExplorer) (key : String) :
    (stateOf (keydown s key)).currentSectionIndex =
      if key = "ArrowRight" ∨ key = "ArrowDown" then
        (if s.currentSectionIndex < 6 then s.currentSectionIndex + 1 else s.currentSectionIndex)
      else if key = "ArrowLeft" ∨ key = "ArrowUp" then
        (if s.currentSectionIndex > 0 then s.currentSectionIndex - 1 else s.currentSectionIndex)
      else s.currentSectionIndex := by
  have h6 : ((sections.length : Int) - 1) = 6 := by simp [sections]
  unfold keydown
  rw [h6]
  split
  · split
    · rw [shown_index]
    · rfl
  · split
    · split
      · rw [shown_index]
      · rfl
    · rfl

theorem handleSwipe_index (s : OceanExplorer) :
    (stateOf (handleSwipe s)).currentSectionIndex =
      if |s.touchEndX - s.touchStartX| > |s.touchEndY - s.touchStartY|
          ∧ |s.touchEndX - s.touchStartX| > 50 then
        (if s.touchEndX - s.touchStartX > 0 then
          (if s.currentSectionIndex > 0 then s.currentSectionIndex - 1
            else s.currentSectionIndex)
        else
          (if s.currentSectionIndex < 6 then s.currentSectionIndex + 1
            else s.currentSectionIndex))
      else s.currentSectionIndex := by
  have h6 : ((sections.length : Int) - 1) = 6 := by simp [sections]
  unfold handleSwipe
  simp only [h6]
  by_cases h1 : |s.touchEndX - s.touchStartX| > |s.touchEndY - s.touchStartY|
  · by_cases h2 : |s.touchEndX - s.touchStartX| > 50
    · simp only [h1, h2, and_self, if_true]
      split
      · split
        · rw [shown_index]
        · rfl
      · split
        · rw [shown_index]
        · rfl
    · simp [h1, h2, stateOf]
  · simp [h1, stateOf]

theorem handle_index_valid (s : OceanExplorer) (ev : Event)
    (h : 0 ≤ s.currentSectionIndex ∧ s.currentSectionIndex < 7) :
    0 ≤ (stateOf (handle s ev)).currentSectionIndex ∧
      (stateOf (handle s ev)).currentSectionIndex < 7 := by
  cases ev with
  | enterClick =>
    have hs := showSection_index s "overview"
    simp only [handle, enterClick]
    cases hr : showSection s "overview" with
    | error e => rw [hr] at hs; simp only [Except.map, stateOf] at hs ⊢; omega
    | ok e => simp [Except.map, stateOf, updateNavigation]
  | navDotClick index =>
    simp only [handle, navDotClick]
    cases sections.get? index with
    | none => simpa [stateOf] using h
    | some sectionName =>
      simp only
      rw [navigateToSection_index]
      rcases indexOf_sections_range sectionName with h1 | h1
      · simp only [h1, ne_eq, not_true_eq_false, if_false]; exact h
      · split
        · exact h1
        · exact h
  | navigateToSection sectionName =>
    simp only [handle]
    rw [navigateToSection_index]
    rcases indexOf_sections_range sectionName with h1 | h1
    · simp only [h1, ne_eq, not_true_eq_false, if_false]; exact h
    · split
      · exact h1
      · exact h
  | keydown key =>
    simp only [handle]
    rw [keydown_index]
    split_ifs <;> omega
  | touchstart x y => simpa [handle, stateOf, touchstart] using h
  | touchend x y =>
    simp only [handle, touchend]
    rw [handleSwipe_index]
    simp only
    split_ifs <;> omega
  | revealTimeout =>
    simp only [handle, stateOf, revealTimeout]
    split
    · exact h
    · split <;> exact h

theorem run_index_valid (events : List Event) (s : OceanExplorer)
    (h : 0 ≤ s.currentSectionIndex ∧ s.currentSectionIndex < 7) :
    0 ≤ (run s events).currentSectionIndex ∧ (run s events).currentSectionIndex < 7 := by
  induction events generalizing s with
  | nil => exact h
  | cons ev rest ih =>
    simp only [run, List.foldl_cons]
    exact ih _ (handle_index_valid s ev h)

/-- C1: in every state reached from the initial state (index 0 over the 7 sections) by
any sequence of enter clicks, nav-dot clicks with any dot index, `navigateToSection`
calls with any string, key presses, touches with any coordinates and reveal timers,
`currentSectionIndex` satisfies `0 ≤ currentSectionIndex < 7` and names a section. -/
theorem currentSectionIndex_always_valid (doc : Document) (dots : Nat) (events : List Event) :
    sections.length = 7 ∧
    0 ≤ (run (initial doc dots) events).currentSectionIndex ∧
    (run (initial doc dots) events).currentSectionIndex < (sections.length : Int) ∧
    sectionAt (run (initial doc dots) events).currentSectionIndex ∈ sections := by
  have h0 : 0 ≤ (initial doc dots).currentSectionIndex ∧
      (initial doc dots).currentSectionIndex < 7 := by
    simp [initial, updateNavigation]
  obtain ⟨h1, h2⟩ := run_index_valid events (initial doc dots) h0
  refine ⟨rfl, h1, by simpa [sections] using h2, ?_⟩
  generalize (run (initial doc dots) events).currentSectionIndex = i at h1 h2
  obtain ⟨n, rfl⟩ := Int.eq_ofNat_of_zero_le h1
  have hn : n < 7 := by omega
  interval_cases n <;> simp [sectionAt, sections]

/-- C2: `navigateToSection(name)` with the name of one of the 7 sections leaves
`currentSectionIndex` at the position of that name in `sections`; with any other string
it completes without an exception and leaves the whole state (index, section elements,
nav dots, timers, sounds) as it was. -/
theorem navigateToSection_known_or_noop (s : OceanExplorer) (sectionName : String) :
    (∀ i : Nat, sections.get? i = some sectionName →
      (stateOf (navigateToSection s sectionName)).currentSectionIndex = (i : Int)) ∧
    (sectionName ∉ sections → navigateToSection s sectionName = .ok s) := by
  constructor
  · intro i hi
    rw [navigateToSection_index]
    have hlt : i < 7 := by
      have := List.get?_eq_some.mp hi
      obtain ⟨h, _⟩ := this
      simpa [sections] using h
    interval_cases i <;> simp [sections] at hi <;> subst hi <;> (rw [if_pos (by decide)]; decide)
  · intro hn
    have h : indexOf sections sectionName = -1 := by
      simp only [sections, List.mem_cons, List.mem_singleton, not_or, List.not_mem_nil,
        or_false] at hn
      obtain ⟨h1, h2, h3, h4, h5, h6, h7⟩ := hn
      simp [indexOf, sections, indexOfFrom, Ne.symm h1, Ne.symm h2, Ne.symm h3, Ne.symm h4,
        Ne.symm h5, Ne.symm h6, Ne.symm h7]
    simp [navigateToSection, h]

/-- Instance of C2: from the sample page, `navigateToSection("quiz")` ends at index 5 and
`navigateToSection("abyss")` changes nothing. -/
theorem navigateToSection_known_or_noop_witness :
    (stateOf (navigateToSection (initial samplePage 7) "quiz")).currentSectionIndex = 5 ∧
    navigateToSection (initial samplePage 7) "abyss" = .ok (initial samplePage 7) :=
  ⟨(navigateToSection_known_or_noop (initial samplePage 7) "quiz").1 5 (by decide),
   (navigateToSection_known_or_noop (initial samplePage 7) "abyss").2 (by decide)⟩

/-- C3: from any valid index `i`, ArrowRight or ArrowDown gives `i + 1` when `i < 6` and
leaves 6 at 6; ArrowLeft or ArrowUp gives `i - 1` when `i > 0` and leaves 0 at 0. -/
theorem keydown_saturates (s : OceanExplorer) (key : String)
    (h : 0 ≤ s.currentSectionIndex ∧ s.currentSectionIndex < 7) :
    ((key = "ArrowRight" ∨ key = "ArrowDown") →
      (stateOf (keydown s key)).currentSectionIndex =
        if s.currentSectionIndex < 6 then s.currentSectionIndex + 1 else 6) ∧
    ((key = "ArrowLeft" ∨ key = "ArrowUp") →
      (stateOf (keydown s key)).currentSectionIndex =
        if s.currentSectionIndex > 0 then s.currentSectionIndex - 1 else 0) := by
  constructor
  · intro hk
    rw [keydown_index, if_pos hk]
    split_ifs <;> omega
  · intro hk
    have hnot : ¬ (key = "ArrowRight" ∨ key = "ArrowDown") := by
      rcases hk with rfl | rfl <;> decide
    rw [keydown_index, if_neg hnot, if_pos hk]
    split_ifs <;> omega

/-- Instance of C3 at the last section: ArrowRight stays at 6, ArrowUp goes to 5. -/
theorem keydown_saturates_witness :
    (0 ≤ (run (initial samplePage 7) [.navDotClick 6]).currentSectionIndex ∧
      (run (initial samplePage 7) [.navDotClick 6]).currentSectionIndex < 7) ∧
    (stateOf (keydown (run (initial samplePage 7) [.navDotClick 6])
      "ArrowRight")).currentSectionIndex = 6 ∧
    (stateOf (keydown (run (initial samplePage 7) [.navDotClick 6])
      "ArrowUp")).currentSectionIndex = 5 :=
  ⟨by decide,
   (keydown_saturates (run (initial samplePage 7) [.navDotClick 6]) "ArrowRight"
      (by decide)).1 (Or.inl rfl),
   (keydown_saturates (run (initial samplePage 7) [.navDotClick 6]) "ArrowUp"
      (by decide)).2 (Or.inr rfl)⟩

/-- C4: `handleSwipe` acts only when `|deltaX| > |deltaY|` and `|deltaX| > 50`: then a
positive `deltaX` does the saturating previous step and a negative one the saturating
next step; in every other case the handler returns with the state untouched. -/
theorem handleSwipe_dominant_axis (s : OceanExplorer) :
    (|s.touchEndX - s.touchStartX| > |s.touchEndY - s.touchStartY| ∧
        |s.touchEndX - s.touchStartX| > 50 →
      (s.touchEndX - s.touchStartX > 0 →
        (stateOf (handleSwipe s)).currentSectionIndex =
          if s.currentSectionIndex > 0 then s.currentSectionIndex - 1
          else s.currentSectionIndex) ∧
      (s.touchEndX - s.touchStartX < 0 →
        (stateOf (handleSwipe s)).currentSectionIndex =
          if s.currentSectionIndex < 6 then s.currentSectionIndex + 1
          else s.currentSectionIndex)) ∧
    (¬ (|s.touchEndX - s.touchStartX| > |s.touchEndY - s.touchStartY| ∧
        |s.touchEndX - s.touchStartX| > 50) → handleSwipe s = .ok s) := by
  constructor
  · intro hd
    constructor
    · intro hpos
      rw [handleSwipe_index, if_pos hd, if_pos hpos]
    · intro hneg
      rw [handleSwipe_index, if_pos hd, if_neg (not_lt.mpr hneg.le)]
  · intro hd
    unfold handleSwipe
    simp only
    by_cases h1 : |s.touchEndX - s.touchStartX| > |s.touchEndY - s.touchStartY|
    · have h2 : ¬ |s.touchEndX - s.touchStartX| > 50 := fun h2 => hd ⟨h1, h2⟩
      rw [if_pos h1, if_neg h2]
    · rw [if_neg h1]

/-- Instance of C4 at section 3 with the touch started at (100, 40): ending it at
(160, 50), so deltaX = 60 and deltaY = 10, goes to section 2; ending it at (110, 100),
so deltaX = 10 and deltaY = 60, does nothing; ending it at (150, 40), so deltaX is
exactly 50, does nothing. -/
theorem handleSwipe_dominant_axis_witness :
    (stateOf (touchend touchedAtZones 160 50)).currentSectionIndex = 2 ∧
    touchend touchedAtZones 110 100 =
      .ok { touchedAtZones with touchEndX := 110, touchEndY := 100 } ∧
    touchend touchedAtZones 150 40 =
      .ok { touchedAtZones with touchEndX := 150, touchEndY := 40 } := by
  have hs : touchedAtZones.currentSectionIndex = 3 := by decide
  have hx : touchedAtZones.touchStartX = 100 := by
    simp [touchedAtZones, run, handle, stateOf, touchstart]
  have hy : touchedAtZones.touchStartY = 40 := by
    simp [touchedAtZones, run, handle, stateOf, touchstart]
  refine ⟨?_, ?_, ?_⟩
  · have h := (handleSwipe_dominant_axis
      { touchedAtZones with touchEndX := 160, touchEndY := 50 }).1
      (by simp only [hx, hy]; norm_num [abs_of_pos]) |>.1 (by simp only [hx]; norm_num)
    simpa [touchend, hs] using h
  · exact (handleSwipe_dominant_axis
      { touchedAtZones with touchEndX := 110, touchEndY := 100 }).2
      (by simp only [hx, hy]; norm_num [abs_of_pos])
  · exact (handleSwipe_dominant_axis
      { touchedAtZones with touchEndX := 150, touchEndY := 40 }).2
      (by simp only [hx, hy]; norm_num [abs_of_pos])

end OceanExplorer

/-! ## Deep sea: click ripples -/

namespace DeepSeaSystem

theorem filterWaves_append (a b : List ClickWave) :
    filterWaves (a ++ b) = filterWaves a ++ filterWaves b := by
  induction a with
  | nil => rfl
  | cons w rest ih =>
    simp only [List.cons_append, filterWaves]
    split
    · exact congrArg _ ih
    · exact ih

theorem filterWaves_eq_advanceRipples (ws : List ClickWave) :
    filterWaves ws = advanceRipples ws := by
  induction ws with
  | nil => rfl
  | cons w rest ih =>
    unfold advanceRipples at ih ⊢
    simp only [filterWaves, List.map_cons, List.filter_cons, ageRipple]
    by_cases h : w.age + 1 < 100
    · simp [h, ih, ageRipple]
    · simp [h, ih, ageRipple]

theorem update_active (s : DeepSeaSystem) (t : Tick) (h : s.deepSeaActive = true) :
    (update s t).1 =
      { s with
        particles := updateParticles t s.mouseX s.mouseY 0 s.particles
        clickWaves := filterWaves s.clickWaves
        depthLevel := t.sin (t.currentTime * (5 / 10000)) * 500 + 1000 } := by
  simp [update, h]

theorem update_inactive (s : DeepSeaSystem) (t : Tick) (h : s.deepSeaActive = false) :
    update s t = (s, none) := by
  simp [update, h]

/-- C5: one active `update` maps `clickWaves` to the list obtained by adding 1 to every
age and 2 to every radius and then dropping the ripples whose new age is at least 100;
the result is a sublist of the aged list (order kept), a ripple survives exactly when its
new age is below 100, and ageing leaves the origin alone. -/
theorem update_advances_ripples (s : DeepSeaSystem) (t : Tick)
    (h : s.deepSeaActive = true) :
    (update s t).1.clickWaves = advanceRipples s.clickWaves ∧
    List.Sublist (update s t).1.clickWaves (s.clickWaves.map ageRipple) ∧
    (∀ w ∈ s.clickWaves, (ageRipple w ∈ (update s t).1.clickWaves ↔ ¬ (w.age + 1 ≥ 100))) ∧
    (∀ w : ClickWave, (ageRipple w).x = w.x ∧ (ageRipple w).y = w.y ∧
      (ageRipple w).age = w.age + 1 ∧ (ageRipple w).radius = w.radius + 2) := by
  have hu : (update s t).1.clickWaves = advanceRipples s.clickWaves := by
    rw [update_active s t h]
    exact filterWaves_eq_advanceRipples s.clickWaves
  refine ⟨hu, ?_, ?_, ?_⟩
  · rw [hu]
    exact List.filter_sublist _
  · intro w hw
    rw [hu]
    unfold advanceRipples
    simp only [List.mem_filter, List.mem_map]
    constructor
    · rintro ⟨_, h2⟩
      simpa [ageRipple] using h2
    · intro h2
      exact ⟨⟨w, hw, rfl⟩, by simpa [ageRipple] using h2⟩
  · intro w
    exact ⟨rfl, rfl, rfl, rfl⟩

/-- Instance of C5: of two ripples aged 98 and 99, one tick keeps the first at age 99
and radius 198 and drops the second. -/
theorem update_advances_ripples_witness :
    oldRipples.deepSeaActive = true ∧
    (update oldRipples sampleTick).1.clickWaves =
      [{ x := 10, y := 20, radius := 198, age := 99 }] := by
  refine ⟨rfl, ?_⟩
  rw [(update_advances_ripples oldRipples sampleTick rfl).1]
  simp [advanceRipples, oldRipples, new, ageRipple, List.filter]
  norm_num

theorem observe_clickWaves (entries : List Bool) (s : DeepSeaSystem) :
    (observe s entries).clickWaves = s.clickWaves := by
  induction entries generalizing s with
  | nil => rfl
  | cons e rest ih =>
    simp only [observe, List.foldl_cons] at ih ⊢
    rw [ih]

theorem observe_active_congr (entries : List Bool) (s1 s2 : DeepSeaSystem)
    (h : s1.deepSeaActive = s2.deepSeaActive) :
    (observe s1 entries).deepSeaActive = (observe s2 entries).deepSeaActive := by
  induction entries generalizing s1 s2 with
  | nil => exact h
  | cons e rest ih =>
    simp only [observe, List.foldl_cons] at ih ⊢
    exact ih _ _ rfl

theorem update_deepSeaActive (s : DeepSeaSystem) (t : Tick) :
    (update s t).1.deepSeaActive = s.deepSeaActive := by
  cases h : s.deepSeaActive with
  | false => rw [update_inactive s t h]; exact h
  | true => rw [update_active s t h]; exact h

theorem handle_active_congr (ev : Event) (s1 s2 : DeepSeaSystem)
    (h : s1.deepSeaActive = s2.deepSeaActive) :
    (handle s1 ev).deepSeaActive = (handle s2 ev).deepSeaActive := by
  cases ev with
  | observe entries => exact observe_active_congr entries s1 s2 h
  | mousemove cx cy l tp => exact h
  | click cx cy l tp v => exact h
  | frame t =>
    simp only [handle]
    rw [update_deepSeaActive, update_deepSeaActive]
    exact h

theorem activeFrames_congr (events : List Event) (s1 s2 : DeepSeaSystem)
    (h : s1.deepSeaActive = s2.deepSeaActive) :
    activeFrames s1 events = activeFrames s2 events := by
  induction events generalizing s1 s2 with
  | nil => rfl
  | cons ev rest ih =>
    simp only [activeFrames]
    rw [ih _ _ (handle_active_congr ev s1 s2 h), h]

theorem run_clickWaves_split (events : List Event) (s1 s2 : DeepSeaSystem)
    (a : List ClickWave) (hact : s1.deepSeaActive = s2.deepSeaActive)
    (hcw : s1.clickWaves = a ++ s2.clickWaves) :
    (run s1 events).clickWaves =
      filterWaves^[activeFrames s1 events] a ++ (run s2 events).clickWaves := by
  induction events generalizing s1 s2 a with
  | nil => simpa [run, activeFrames] using hcw
  | cons ev rest ih =>
    have hnext := handle_active_congr ev s1 s2 hact
    simp only [run, List.foldl_cons] at ih ⊢
    cases ev with
    | observe entries =>
      have h1 : (handle s1 (.observe entries)).clickWaves =
          a ++ (handle s2 (.observe entries)).clickWaves := by
        simp only [handle, observe_clickWaves]; exact hcw
      rw [ih _ _ a hnext h1]
      simp [activeFrames]
    | mousemove cx cy l tp =>
      have h1 : (handle s1 (.mousemove cx cy l tp)).clickWaves =
          a ++ (handle s2 (.mousemove cx cy l tp)).clickWaves := hcw
      rw [ih _ _ a hnext h1]
      simp [activeFrames]
    | click cx cy l tp v =>
      have h1 : (handle s1 (.click cx cy l tp v)).clickWaves =
          a ++ (handle s2 (.click cx cy l tp v)).clickWaves := by
        simp only [handle, click, hcw, List.append_assoc]
      rw [ih _ _ a hnext h1]
      simp [activeFrames]
    | frame t =>
      cases hb : s1.deepSeaActive with
      | false =>
        have hb2 : s2.deepSeaActive = false := by rw [← hact]; exact hb
        have h1 : (handle s1 (.frame t)).clickWaves =
            a ++ (handle s2 (.frame t)).clickWaves := by
          simp only [handle, update_inactive s1 t hb, update_inactive s2 t hb2]; exact hcw
        rw [ih _ _ a hnext h1]
        simp [activeFrames, hb]
      | true =>
        have hb2 : s2.deepSeaActive = true := by rw [← hact]; exact hb
        have h1 : (handle s1 (.frame t)).clickWaves =
            filterWaves a ++ (handle s2 (.frame t)).clickWaves := by
          simp only [handle, update_active s1 t hb, update_active s2 t hb2, hcw,
            filterWaves_append]
        rw [ih _ _ (filterWaves a) hnext h1]
        simp only [activeFrames, hb, if_true]
        rw [add_comm, Function.iterate_succ_apply]

theorem filterWaves_iterate_nil (n : Nat) : filterWaves^[n] [] = [] := by
  induction n with
  | zero => rfl
  | succ n ih => rw [Function.iterate_succ_apply]; exact ih

theorem filterWaves_iterate_single (x y : ℚ) (n j : Nat) (hj : j < 100) :
    filterWaves^[n] [{ x := x, y := y, radius := 2 * (j : ℚ), age := (j : ℚ) }] =
      if j + n < 100 then
        [{ x := x, y := y, radius := 2 * ((j + n : Nat) : ℚ), age := ((j + n : Nat) : ℚ) }]
      else [] := by
  induction n generalizing j with
  | zero => simp [hj]
  | succ n ih =>
    rw [Function.iterate_succ_apply]
    by_cases h1 : j + 1 < 100
    · have hq : ((j : ℚ) + 1 < 100) := by exact_mod_cast h1
      have hstep : filterWaves [{ x := x, y := y, radius := 2 * (j : ℚ), age := (j : ℚ) }] =
          [{ x := x, y := y, radius := 2 * ((j + 1 : Nat) : ℚ), age := ((j + 1 : Nat) : ℚ) }] := by
        simp only [filterWaves, hq, if_true]
        congr 2
        · push_cast; ring
        · push_cast; ring
      rw [hstep, ih (j + 1) h1]
      have e : j + 1 + n = j + (n + 1) := by omega
      rw [e]
    · have hq : ¬ ((j : ℚ) + 1 < 100) := by
        intro hlt
        exact h1 (by exact_mod_cast hlt)
      have hstep : filterWaves [{ x := x, y := y, radius := 2 * (j : ℚ), age := (j : ℚ) }] =
          [] := by
        simp only [filterWaves, hq, if_false]
      rw [hstep, filterWaves_iterate_nil]
      have : ¬ (j + (n + 1) < 100) := by omega
      rw [if_neg this]

theorem ripple_split (s : DeepSeaSystem) (cx cy l tp v : ℚ) (events : List Event) :
    (run (click s cx cy l tp v).1 events).clickWaves =
      filterWaves^[activeFrames (click s cx cy l tp v).1 events] s.clickWaves ++
      (filterWaves^[activeFrames (click s cx cy l tp v).1 events]
          [{ x := cx - l, y := cy - tp, radius := 0, age := 0 }] ++
        (run { s with clickWaves := [] } events).clickWaves) := by
  have hn : activeFrames
      { s with clickWaves := [{ x := cx - l, y := cy - tp, radius := 0, age := 0 }] } events
      = activeFrames (click s cx cy l tp v).1 events :=
    activeFrames_congr events _ _ rfl
  rw [run_clickWaves_split events (click s cx cy l tp v).1
      { s with clickWaves := [{ x := cx - l, y := cy - tp, radius := 0, age := 0 }] }
      s.clickWaves rfl rfl,
    run_clickWaves_split events
      { s with clickWaves := [{ x := cx - l, y := cy - tp, radius := 0, age := 0 }] }
      { s with clickWaves := [] }
      [{ x := cx - l, y := cy - tp, radius := 0, age := 0 }] rfl (by simp), hn]

theorem run_frames_no_ripples (t : Tick) (n : Nat) (s : DeepSeaSystem)
    (h : s.clickWaves = []) :
    (run s (List.replicate n (.frame t))).clickWaves = [] := by
  induction n generalizing s with
  | zero => exact h
  | succ n ih =>
    simp only [run, List.replicate_succ, List.foldl_cons] at ih ⊢
    apply ih
    cases hb : s.deepSeaActive with
    | false => simp only [handle, update_inactive s t hb]; exact h
    | true => simp only [handle, update_active s t hb, h, filterWaves]

/-- C6: a ripple spawned by a click (age 0, radius 0) sits, after any later events
containing `n` active `update` calls with `n ≤ 99`, in the ripple list with age `n` and
radius `2 n`, between the older ripples and those spawned later; from the 100th active
`update` on it is gone: the list is then the one the same events produce without that
click. -/
theorem ripple_lifetime (s : DeepSeaSystem) (clientX clientY rectLeft rectTop masterVolume : ℚ)
    (events : List Event) :
    (activeFrames (click s clientX clientY rectLeft rectTop masterVolume).1 events < 100 →
      (run (click s clientX clientY rectLeft rectTop masterVolume).1 events).clickWaves =
        filterWaves^[activeFrames (click s clientX clientY rectLeft rectTop masterVolume).1
            events] s.clickWaves ++
          { x := clientX - rectLeft, y := clientY - rectTop,
            radius := 2 * (activeFrames (click s clientX clientY rectLeft rectTop
              masterVolume).1 events : ℚ),
            age := (activeFrames (click s clientX clientY rectLeft rectTop
              masterVolume).1 events : ℚ) } ::
          (run { s with clickWaves := [] } events).clickWaves) ∧
    (100 ≤ activeFrames (click s clientX clientY rectLeft rectTop masterVolume).1 events →
      (run (click s clientX clientY rectLeft rectTop masterVolume).1 events).clickWaves =
        filterWaves^[activeFrames (click s clientX clientY rectLeft rectTop masterVolume).1
            events] s.clickWaves ++
          (run { s with clickWaves := [] } events).clickWaves ∧
      (run (click s clientX clientY rectLeft rectTop masterVolume).1 events).clickWaves =
        (run s events).clickWaves) := by
  have hsplit := ripple_split s clientX clientY rectLeft rectTop masterVolume events
  have hsingle := filterWaves_iterate_single (clientX - rectLeft) (clientY - rectTop)
    (activeFrames (click s clientX clientY rectLeft rectTop masterVolume).1 events) 0
    (by decide)
  simp only [Nat.cast_zero, mul_zero, zero_add] at hsingle
  constructor
  · intro hlt
    rw [hsplit, hsingle, if_pos hlt]
    rfl
  · intro hge
    have hbase : (run (click s clientX clientY rectLeft rectTop masterVolume).1
        events).clickWaves =
        filterWaves^[activeFrames (click s clientX clientY rectLeft rectTop masterVolume).1
            events] s.clickWaves ++
          (run { s with clickWaves := [] } events).clickWaves := by
      rw [hsplit, hsingle, if_neg (not_lt.mpr hge)]
      rfl
    refine ⟨hbase, ?_⟩
    rw [hbase, run_clickWaves_split events s { s with clickWaves := [] } s.clickWaves rfl
      (by simp)]
    rw [activeFrames_congr events s (click s clientX clientY rectLeft rectTop masterVolume).1
      rfl]

/-- Instance of C6: after a click at (5, 7) on an active system and 99 frames the ripple
is there with age 99 and radius 198; after 100 frames the list is empty. -/
theorem ripple_lifetime_witness :
    (run (click activeSea 5 7 0 0 0).1 (List.replicate 99 (.frame sampleTick))).clickWaves =
      [{ x := 5, y := 7, radius := 198, age := 99 }] ∧
    (run (click activeSea 5 7 0 0 0).1 (List.replicate 100 (.frame sampleTick))).clickWaves =
      [] := by
  have h99 : activeFrames (click activeSea 5 7 0 0 0).1
      (List.replicate 99 (.frame sampleTick)) = 99 := by decide
  have h100 : activeFrames (click activeSea 5 7 0 0 0).1
      (List.replicate 100 (.frame sampleTick)) = 100 := by decide
  constructor
  · have h := (ripple_lifetime activeSea 5 7 0 0 0 (List.replicate 99 (.frame sampleTick))).1
      (by rw [h99]; decide)
    rw [h, h99]
    have hl : (run { activeSea with clickWaves := [] }
        (List.replicate 99 (.frame sampleTick))).clickWaves = [] :=
      run_frames_no_ripples sampleTick 99 _ rfl
    rw [hl]
    simp [activeSea, new, filterWaves_iterate_nil]
    norm_num
  · have h := (ripple_lifetime activeSea 5 7 0 0 0 (List.replicate 100 (.frame sampleTick))).2
      (by rw [h100])
    rw [h.1, h100]
    have hl : (run { activeSea with clickWaves := [] }
        (List.replicate 100 (.frame sampleTick))).clickWaves = [] :=
      run_frames_no_ripples sampleTick 100 _ rfl
    rw [hl]
    simp [activeSea, new, filterWaves_iterate_nil]

/-- C7: the opacity `draw` gives a ripple is `max(0, 1 - age / 100)`: 1 at age 0, 0 at
age 100, 0 (not negative) at age 150, never negative and non-increasing in age. -/
theorem waveOpacity_fade :
    (∀ s : DeepSeaSystem, (draw s).waveCircles.map (fun c => c.opacity) =
      s.clickWaves.map (fun w => max 0 (1 - w.age / 100))) ∧
    waveOpacity 0 = 1 ∧ waveOpacity 100 = 0 ∧ waveOpacity 150 = 0 ∧
    (∀ age : ℚ, 0 ≤ waveOpacity age) ∧
    Antitone waveOpacity := by
  refine ⟨?_, ?_, ?_, ?_, ?_, ?_⟩
  · intro s
    simp [draw, waveOpacity, List.map_map, Function.comp_def]
  · norm_num [waveOpacity]
  · norm_num [waveOpacity]
  · norm_num [waveOpacity]
  · intro age
    exact le_max_left _ _
  · intro a b hab
    unfold waveOpacity
    apply max_le_max le_rfl
    have : a / 100 ≤ b / 100 := by
      apply div_le_div_of_nonneg_right hab
      norm_num
    linarith

end DeepSeaSystem

/-! ## Deep sea: particle motion and wrap-around -/

namespace DeepSeaSystem

theorem random_scaled (t : Tick) (hw : 0 < t.width)
    (hr : ∀ n, 0 ≤ t.random n ∧ t.random n < 1) (n : Nat) :
    0 ≤ t.random n * t.width ∧ t.random n * t.width < t.width := by
  obtain ⟨h0, h1⟩ := hr n
  constructor
  · exact mul_nonneg h0 hw.le
  · calc t.random n * t.width < 1 * t.width := mul_lt_mul_of_pos_right h1 hw
      _ = t.width := one_mul _

theorem glowParticle_pos (t : Tick) (p : Particle) :
    (glowParticle t p).x = p.x ∧ (glowParticle t p).y = p.y := by
  unfold glowParticle
  split <;> exact ⟨rfl, rfl⟩

theorem updateParticle_pos (t : Tick) (mouseX mouseY : ℚ) (k : Nat) (p : Particle) :
    (updateParticle t mouseX mouseY k p).1.x =
      (wrapParticle t k (moveParticle t mouseX mouseY p)).1.x ∧
    (updateParticle t mouseX mouseY k p).1.y =
      (wrapParticle t k (moveParticle t mouseX mouseY p)).1.y := by
  unfold updateParticle
  exact glowParticle_pos t _

theorem wrapParticle_top (t : Tick) (k : Nat) (m : Particle) (hw : 0 < t.width)
    (hr : ∀ n, 0 ≤ t.random n ∧ t.random n < 1) (h : m.y < -20) :
    (wrapParticle t k m).1.y = t.height + 20 ∧
    (wrapParticle t k m).1.x = t.random k * t.width := by
  obtain ⟨h0, h1⟩ := random_scaled t hw hr k
  have hno : ¬ (t.random k * t.width < -20 ∨ t.random k * t.width > t.width + 20) := by
    rintro (h2 | h2) <;> linarith
  simp [wrapParticle, wrapTop, wrapSides, h, hno]

theorem wrapParticle_y (t : Tick) (k : Nat) (m : Particle) :
    (wrapParticle t k m).1.y = if m.y < -20 then t.height + 20 else m.y := by
  unfold wrapParticle wrapSides wrapTop
  by_cases h : m.y < -20
  · simp only [h, if_true]
    split <;> rfl
  · simp only [h, if_false]
    split <;> rfl

theorem moveParticle_y (t : Tick) (mouseX mouseY : ℚ) (p : Particle)
    (h : p.type ≠ "bioluminescent") :
    (moveParticle t mouseX mouseY p).y = p.y + p.vy := by
  unfold moveParticle
  simp only [h, if_false]
  split <;> rfl

/-- C9: the wrap-around of `update`, for a window of positive width and random draws
in [0, 1).  If the particle is above -20 after the motion steps, `y` becomes
`height + 20` and `x` the draw times `width`, a value in [0, width).  If after that `x`
is below -20 or above `width + 20`, `x` becomes a value in [0, width) and `y` stays.
If neither test holds, `x` and `y` are those after the motion steps. -/
theorem wrap_around (t : Tick) (mouseX mouseY : ℚ) (k : Nat) (p : Particle)
    (hw : 0 < t.width) (hr : ∀ n, 0 ≤ t.random n ∧ t.random n < 1) :
    ((moveParticle t mouseX mouseY p).y < -20 →
      (updateParticle t mouseX mouseY k p).1.y = t.height + 20 ∧
      (updateParticle t mouseX mouseY k p).1.x = t.random k * t.width ∧
      0 ≤ (updateParticle t mouseX mouseY k p).1.x ∧
      (updateParticle t mouseX mouseY k p).1.x < t.width) ∧
    (((wrapTop t k (moveParticle t mouseX mouseY p)).1.x < -20 ∨
        (wrapTop t k (moveParticle t mouseX mouseY p)).1.x > t.width + 20) →
      0 ≤ (updateParticle t mouseX mouseY k p).1.x ∧
      (updateParticle t mouseX mouseY k p).1.x < t.width ∧
      (updateParticle t mouseX mouseY k p).1.y =
        (wrapTop t k (moveParticle t mouseX mouseY p)).1.y) ∧
    (¬ (moveParticle t mouseX mouseY p).y < -20 →
      ¬ ((moveParticle t mouseX mouseY p).x < -20 ∨
        (moveParticle t mouseX mouseY p).x > t.width + 20) →
      (updateParticle t mouseX mouseY k p).1.x = (moveParticle t mouseX mouseY p).x ∧
      (updateParticle t mouseX mouseY k p).1.y = (moveParticle t mouseX mouseY p).y) := by
  obtain ⟨hx, hy⟩ := updateParticle_pos t mouseX mouseY k p
  rw [hx, hy]
  generalize moveParticle t mouseX mouseY p = m
  refine ⟨?_, ?_, ?_⟩
  · intro h
    obtain ⟨h1, h2⟩ := wrapParticle_top t k m hw hr h
    obtain ⟨h3, h4⟩ := random_scaled t hw hr k
    rw [h1, h2]
    exact ⟨rfl, rfl, h3, h4⟩
  · intro h
    obtain ⟨h3, h4⟩ := random_scaled t hw hr (wrapTop t k m).2
    have e : wrapParticle t k m =
        ({ (wrapTop t k m).1 with x := t.random (wrapTop t k m).2 * t.width },
          (wrapTop t k m).2 + 1) := by
      simp only [wrapParticle, wrapSides, h, if_true]
    rw [e]
    exact ⟨h3, h4, rfl⟩
  · intro h1 h2
    simp [wrapParticle, wrapTop, wrapSides, h1, h2]

/-- Instance of C9 in the 800 by 400 sample window with every draw 1/2: the particle
that rises to y = -20.2 ends at (400, 420). -/
theorem wrap_around_witness :
    (0 < sampleTick.width ∧ (∀ n, 0 ≤ sampleTick.random n ∧ sampleTick.random n < 1) ∧
      (moveParticle sampleTick 0 0 risingDebris).y < -20) ∧
    (updateParticle sampleTick 0 0 0 risingDebris).1.y = 420 ∧
    (updateParticle sampleTick 0 0 0 risingDebris).1.x = 400 := by
  have hw : 0 < sampleTick.width := by norm_num [sampleTick]
  have hr : ∀ n, 0 ≤ sampleTick.random n ∧ sampleTick.random n < 1 := by
    intro n; norm_num [sampleTick]
  have hm : (moveParticle sampleTick 0 0 risingDebris).y < -20 := by
    rw [moveParticle_y _ _ _ _ (by decide)]
    norm_num [risingDebris]
  obtain ⟨h1, h2, _⟩ := (wrap_around sampleTick 0 0 0 risingDebris hw hr).1 hm
  refine ⟨⟨hw, hr, hm⟩, ?_, ?_⟩
  · rw [h1]; norm_num [sampleTick]
  · rw [h2]; norm_num [sampleTick]

/-- Counterexample to C8 as stated: in the 800 by 400 window the debris particle at
y = 500, which exceeds height + 20 = 420, is after the next active `update` at
y = 499.7 with `x` unchanged; nothing wraps it to the top. -/
theorem below_bottom_not_wrapped :
    sampleTick.height + 20 < sunkDebris.y ∧
    (seaWith sunkDebris 0 0).deepSeaActive = true ∧
    (update (seaWith sunkDebris 0 0) sampleTick).1.particles =
      [{ sunkDebris with y := 4997 / 10 }] ∧
    ¬ (-20 ≤ (4997 / 10 : ℚ) ∧ (4997 / 10 : ℚ) ≤ 0) := by
  refine ⟨by norm_num [sampleTick, sunkDebris], rfl, ?_, by norm_num⟩
  have h1 : ("debris" : String) ≠ "bubbles" := by decide
  have h2 : ("debris" : String) ≠ "bioluminescent" := by decide
  rw [update_active _ _ rfl]
  norm_num [seaWith, activeSea, new, updateParticles, updateParticle, moveParticle,
    wrapParticle, wrapTop, wrapSides, glowParticle, sunkDebris, sampleTick, h1, h2]

/-- C8 amended: `update` has no reset at the bottom edge.  For a window of positive
width and draws in [0, 1): the vertical position after a tick is `height + 20` when the
particle is above -20 after the motion steps (then `x` is redrawn in [0, width)) and is
the position after the motion steps otherwise; for a particle that is not
bioluminescent that position is `y + vy`.  So a particle with `y > height + 20` and
`y + vy ≥ -20` just ends at `y + vy`. -/
theorem vertical_reset_only_at_top (t : Tick) (mouseX mouseY : ℚ) (k : Nat) (p : Particle)
    (hw : 0 < t.width) (hr : ∀ n, 0 ≤ t.random n ∧ t.random n < 1) :
    ((updateParticle t mouseX mouseY k p).1.y =
      if (moveParticle t mouseX mouseY p).y < -20 then t.height + 20
      else (moveParticle t mouseX mouseY p).y) ∧
    ((moveParticle t mouseX mouseY p).y < -20 →
      0 ≤ (updateParticle t mouseX mouseY k p).1.x ∧
      (updateParticle t mouseX mouseY k p).1.x < t.width) ∧
    (p.type ≠ "bioluminescent" → (moveParticle t mouseX mouseY p).y = p.y + p.vy) ∧
    (t.height + 20 < p.y → p.type ≠ "bioluminescent" → -20 ≤ p.y + p.vy →
      (updateParticle t mouseX mouseY k p).1.y = p.y + p.vy) := by
  obtain ⟨hx, hy⟩ := updateParticle_pos t mouseX mouseY k p
  refine ⟨?_, ?_, ?_, ?_⟩
  · rw [hy, wrapParticle_y]
  · intro h
    obtain ⟨_, h2⟩ := wrapParticle_top t k _ hw hr h
    obtain ⟨h3, h4⟩ := random_scaled t hw hr k
    rw [hx, h2]
    exact ⟨h3, h4⟩
  · exact moveParticle_y t mouseX mouseY p
  · intro _ hb hge
    rw [hy, wrapParticle_y, moveParticle_y t mouseX mouseY p hb, if_neg (not_lt.mpr hge)]

/-- Instance of the amended C8: the sunk debris particle ends at y = 499.7, and the
rising one, above -20 after its movement, ends at y = 420 with `x` in [0, 800). -/
theorem vertical_reset_only_at_top_witness :
    (0 < sampleTick.width ∧ (∀ n, 0 ≤ sampleTick.random n ∧ sampleTick.random n < 1)) ∧
    (updateParticle sampleTick 0 0 0 sunkDebris).1.y = 4997 / 10 ∧
    (updateParticle sampleTick 0 0 0 risingDebris).1.y = 420 := by
  have hw : 0 < sampleTick.width := by norm_num [sampleTick]
  have hr : ∀ n, 0 ≤ sampleTick.random n ∧ sampleTick.random n < 1 := by
    intro n; norm_num [sampleTick]
  refine ⟨⟨hw, hr⟩, ?_, ?_⟩
  · rw [(vertical_reset_only_at_top sampleTick 0 0 0 sunkDebris hw hr).2.2.2
      (by norm_num [sampleTick, sunkDebris]) (by decide) (by norm_num [sunkDebris])]
    norm_num [sunkDebris]
  · rw [(vertical_reset_only_at_top sampleTick 0 0 0 risingDebris hw hr).1,
      moveParticle_y _ _ _ _ (by decide)]
    norm_num [risingDebris, sampleTick]

end DeepSeaSystem

/-! ## Deep sea: particles at rest -/

namespace DeepSeaSystem

theorem updateParticle_at_rest (t : Tick) (mouseX mouseY : ℚ) (k : Nat) (p : Particle)
    (hvx : p.vx = 0) (hvy : p.vy = 0)
    (hy : -20 ≤ p.y) (hx1 : -20 ≤ p.x) (hx2 : p.x ≤ t.width + 20)
    (hfar : p.type = "bioluminescent" →
      100 * 100 ≤ (mouseX - p.x) * (mouseX - p.x) + (mouseY - p.y) * (mouseY - p.y))
    (hsin : p.type = "bubbles" → t.sin (p.phase + t.currentTime * (1 / 1000)) = 0) :
    (updateParticle t mouseX mouseY k p).1 = glowParticle t p := by
  have hmove : moveParticle t mouseX mouseY p = p := by
    obtain ⟨ty, x, y, r, color, vy, vx, opacity, glow, phase⟩ := p
    simp only at hvx hvy hfar hsin
    subst hvx hvy
    unfold moveParticle
    simp only [add_zero]
    by_cases hb : ty = "bioluminescent"
    · have hnb : ¬ ty = "bubbles" := by rw [hb]; decide
      simp only [hb, if_true, not_lt.mpr (hfar hb), if_false]
      rw [← hb]
      simp only [hnb, if_false]
    · simp only [hb, if_false]
      by_cases hbu : ty = "bubbles"
      · simp only [hbu, if_true, hsin hbu, zero_mul, add_zero]
      · simp only [hbu, if_false]
  have hwrap : wrapParticle t k p = (p, k) := by
    have h1 : ¬ p.y < -20 := not_lt.mpr hy
    have h2 : ¬ (p.x < -20 ∨ p.x > t.width + 20) := by
      rintro (h | h) <;> linarith
    simp [wrapParticle, wrapTop, wrapSides, h1, h2]
  unfold updateParticle
  rw [hmove, hwrap]

theorem glowParticle_frame (t : Tick) (p : Particle) :
    (glowParticle t p).x = p.x ∧ (glowParticle t p).y = p.y ∧
    (glowParticle t p).vx = p.vx ∧ (glowParticle t p).vy = p.vy ∧
    (glowParticle t p).type = p.type ∧ (glowParticle t p).phase = p.phase := by
  unfold glowParticle
  split <;> exact ⟨rfl, rfl, rfl, rfl, rfl, rfl⟩

theorem updateParticles_get? (t : Tick) (mouseX mouseY : ℚ) (ps : List Particle) :
    ∀ (k i : Nat) (p : Particle), ps.get? i = some p →
      ∃ j, (updateParticles t mouseX mouseY k ps).get? i =
        some (updateParticle t mouseX mouseY j p).1 := by
  induction ps with
  | nil => intro k i p h; simp at h
  | cons a rest ih =>
    intro k i p h
    cases i with
    | zero =>
      simp only [List.get?_cons_zero, Option.some.injEq] at h
      subst h
      exact ⟨k, rfl⟩
    | succ i =>
      simp only [List.get?_cons_succ] at h
      obtain ⟨j, hj⟩ := ih (updateParticle t mouseX mouseY k a).2 i p h
      exact ⟨j, by simpa [updateParticles] using hj⟩

theorem update_mouse (s : DeepSeaSystem) (t : Tick) :
    (update s t).1.mouseX = s.mouseX ∧ (update s t).1.mouseY = s.mouseY := by
  cases h : s.deepSeaActive with
  | false => rw [update_inactive s t h]; exact ⟨rfl, rfl⟩
  | true => rw [update_active s t h]; exact ⟨rfl, rfl⟩

theorem update_at_rest (s : DeepSeaSystem) (t : Tick) (i : Nat) (p : Particle)
    (hp : s.particles.get? i = some p) (hvx : p.vx = 0) (hvy : p.vy = 0)
    (hy : -20 ≤ p.y) (hx1 : -20 ≤ p.x) (hx2 : p.x ≤ t.width + 20)
    (hfar : p.type = "bioluminescent" →
      100 * 100 ≤ (s.mouseX - p.x) * (s.mouseX - p.x) + (s.mouseY - p.y) * (s.mouseY - p.y))
    (hsin : p.type = "bubbles" → t.sin (p.phase + t.currentTime * (1 / 1000)) = 0) :
    ∃ q, (update s t).1.particles.get? i = some q ∧ q.x = p.x ∧ q.y = p.y ∧
      q.vx = p.vx ∧ q.vy = p.vy ∧ q.type = p.type ∧ q.phase = p.phase := by
  cases h : s.deepSeaActive with
  | false =>
    rw [update_inactive s t h]
    exact ⟨p, hp, rfl, rfl, rfl, rfl, rfl, rfl⟩
  | true =>
    rw [update_active s t h]
    obtain ⟨j, hj⟩ := updateParticles_get? t s.mouseX s.mouseY s.particles 0 i p hp
    rw [updateParticle_at_rest t s.mouseX s.mouseY j p hvx hvy hy hx1 hx2 hfar hsin] at hj
    exact ⟨glowParticle t p, hj, glowParticle_frame t p⟩

/-- Counterexample to C10 as stated: the bioluminescent particle with `vx = 0` and
`vy = 0` at (100, 100), the mouse being at (150, 100), is at (100.5, 100) after one
active `update`: the attraction moves it a hundredth of the way to the mouse. -/
theorem zero_velocity_glow_moves :
    restingGlow.vx = 0 ∧ restingGlow.vy = 0 ∧
    (restingGlow.x, restingGlow.y) = (100, 100) ∧
    (seaWith restingGlow 150 100).deepSeaActive = true ∧
    (update (seaWith restingGlow 150 100) sampleTick).1.particles.map
      (fun q => (q.x, q.y)) = [(201 / 2, 100)] := by
  have h1 : ("bioluminescent" : String) ≠ "bubbles" := by decide
  refine ⟨rfl, rfl, rfl, rfl, ?_⟩
  rw [update_active _ _ rfl]
  norm_num [seaWith, activeSea, new, updateParticles, updateParticle, moveParticle,
    wrapParticle, wrapTop, wrapSides, glowParticle, restingGlow, sampleTick, h1]

/-- C10 amended: a particle with `vx = 0` and `vy = 0` is, after any number of `update`
ticks, where it was before the first, provided that at every tick it lies inside the
wrap bounds (`y ≥ -20` and `-20 ≤ x ≤ width + 20`), that, if it is bioluminescent, the
mouse is at distance at least 100 from it, and that, if it is a bubble, its sine term
`sin(phase + currentTime * 0.001)` is 0 at every tick. -/
theorem zero_velocity_at_rest (ticks : List Tick) (s : DeepSeaSystem) (i : Nat)
    (p : Particle) (hp : s.particles.get? i = some p) (hvx : p.vx = 0) (hvy : p.vy = 0)
    (hy : -20 ≤ p.y) (hx1 : -20 ≤ p.x) (hx2 : ∀ t ∈ ticks, p.x ≤ t.width + 20)
    (hfar : p.type = "bioluminescent" →
      100 * 100 ≤ (s.mouseX - p.x) * (s.mouseX - p.x) + (s.mouseY - p.y) * (s.mouseY - p.y))
    (hsin : p.type = "bubbles" →
      ∀ t ∈ ticks, t.sin (p.phase + t.currentTime * (1 / 1000)) = 0) :
    ∃ q, (updates s ticks).particles.get? i = some q ∧ q.x = p.x ∧ q.y = p.y := by
  induction ticks generalizing s p with
  | nil => exact ⟨p, hp, rfl, rfl⟩
  | cons t rest ih =>
    obtain ⟨q, hq, qx, qy, qvx, qvy, qty, qph⟩ :=
      update_at_rest s t i p hp hvx hvy hy hx1 (hx2 t (List.mem_cons_self _ _)) hfar
        (fun hb => hsin hb t (List.mem_cons_self _ _))
    obtain ⟨hmx, hmy⟩ := update_mouse s t
    obtain ⟨q2, hq2, q2x, q2y⟩ := ih (update s t).1 q hq (by rw [qvx, hvx]) (by rw [qvy, hvy])
      (by rw [qy]; exact hy) (by rw [qx]; exact hx1)
      (fun t2 ht2 => by rw [qx]; exact hx2 t2 (List.mem_cons_of_mem _ ht2))
      (fun hb => by rw [hmx, hmy, qx, qy]; exact hfar (by rw [← qty]; exact hb))
      (fun hb t2 ht2 => by
        rw [qph]; exact hsin (by rw [← qty]; exact hb) t2 (List.mem_cons_of_mem _ ht2))
    refine ⟨q2, ?_, by rw [q2x, qx], by rw [q2y, qy]⟩
    simpa [updates] using hq2

/-- Instance of the amended C10: the debris particle at rest at (100, 100) is still at
(100, 100) after three active ticks in the sample window. -/
theorem zero_velocity_at_rest_witness :
    (seaWith restingDebris 150 100).deepSeaActive = true ∧
    (seaWith restingDebris 150 100).particles.get? 0 = some restingDebris ∧
    restingDebris.vx = 0 ∧ restingDebris.vy = 0 ∧
    ∃ q, (updates (seaWith restingDebris 150 100)
        [sampleTick, sampleTick, sampleTick]).particles.get? 0 = some q ∧
      q.x = 100 ∧ q.y = 100 :=
  ⟨rfl, rfl, rfl, rfl,
    zero_velocity_at_rest [sampleTick, sampleTick, sampleTick] (seaWith restingDebris 150 100)
      0 restingDebris rfl rfl rfl (by norm_num [restingDebris]) (by norm_num [restingDebris])
      (by intro t ht
          simp only [List.mem_cons, List.mem_singleton, List.not_mem_nil, or_false,
            or_self] at ht
          subst ht
          norm_num [restingDebris, sampleTick])
      (by intro h; exact absurd h (by decide))
      (by intro h; exact absurd h (by decide))⟩

end DeepSeaSystem

/-! ## Deep sea: what a tick keeps -/

namespace DeepSeaSystem

theorem moveParticle_keeps (t : Tick) (mouseX mouseY : ℚ) (p : Particle) :
    (moveParticle t mouseX mouseY p).type = p.type ∧
    (moveParticle t mouseX mouseY p).r = p.r ∧
    (moveParticle t mouseX mouseY p).color = p.color ∧
    (moveParticle t mouseX mouseY p).vx = p.vx ∧
    (moveParticle t mouseX mouseY p).vy = p.vy ∧
    (moveParticle t mouseX mouseY p).glow = p.glow ∧
    (moveParticle t mouseX mouseY p).phase = p.phase ∧
    (moveParticle t mouseX mouseY p).opacity = p.opacity := by
  unfold moveParticle
  simp only
  split_ifs <;> exact ⟨rfl, rfl, rfl, rfl, rfl, rfl, rfl, rfl⟩

theorem wrapParticle_keeps (t : Tick) (k : Nat) (p : Particle) :
    (wrapParticle t k p).1.type = p.type ∧
    (wrapParticle t k p).1.r = p.r ∧
    (wrapParticle t k p).1.color = p.color ∧
    (wrapParticle t k p).1.vx = p.vx ∧
    (wrapParticle t k p).1.vy = p.vy ∧
    (wrapParticle t k p).1.glow = p.glow ∧
    (wrapParticle t k p).1.phase = p.phase ∧
    (wrapParticle t k p).1.opacity = p.opacity := by
  unfold wrapParticle wrapSides wrapTop
  simp only
  split_ifs <;> exact ⟨rfl, rfl, rfl, rfl, rfl, rfl, rfl, rfl⟩

theorem glowParticle_keeps (t : Tick) (p : Particle) :
    (glowParticle t p).type = p.type ∧
    (glowParticle t p).r = p.r ∧
    (glowParticle t p).color = p.color ∧
    (glowParticle t p).vx = p.vx ∧
    (glowParticle t p).vy = p.vy ∧
    (glowParticle t p).glow = p.glow ∧
    (glowParticle t p).phase = p.phase ∧
    (p.glow = false → (glowParticle t p).opacity = p.opacity) := by
  unfold glowParticle
  split
  · rename_i h
    exact ⟨rfl, rfl, rfl, rfl, rfl, rfl, rfl, fun hf => by rw [hf] at h; cases h⟩
  · exact ⟨rfl, rfl, rfl, rfl, rfl, rfl, rfl, fun _ => rfl⟩

theorem updateParticle_keeps (t : Tick) (mouseX mouseY : ℚ) (k : Nat) (p : Particle) :
    (updateParticle t mouseX mouseY k p).1.type = p.type ∧
    (updateParticle t mouseX mouseY k p).1.r = p.r ∧
    (updateParticle t mouseX mouseY k p).1.color = p.color ∧
    (updateParticle t mouseX mouseY k p).1.vx = p.vx ∧
    (updateParticle t mouseX mouseY k p).1.vy = p.vy ∧
    (updateParticle t mouseX mouseY k p).1.glow = p.glow ∧
    (updateParticle t mouseX mouseY k p).1.phase = p.phase ∧
    (p.glow = false → (updateParticle t mouseX mouseY k p).1.opacity = p.opacity) := by
  obtain ⟨m1, m2, m3, m4, m5, m6, m7, m8⟩ := moveParticle_keeps t mouseX mouseY p
  obtain ⟨w1, w2, w3, w4, w5, w6, w7, w8⟩ :=
    wrapParticle_keeps t k (moveParticle t mouseX mouseY p)
  obtain ⟨g1, g2, g3, g4, g5, g6, g7, g8⟩ :=
    glowParticle_keeps t (wrapParticle t k (moveParticle t mouseX mouseY p)).1
  unfold updateParticle
  simp only
  refine ⟨by rw [g1, w1, m1], by rw [g2, w2, m2], by rw [g3, w3, m3], by rw [g4, w4, m4],
    by rw [g5, w5, m5], by rw [g6, w6, m6], by rw [g7, w7, m7], ?_⟩
  intro hf
  rw [g8 (by rw [w6, m6]; exact hf), w8, m8]

theorem updateParticles_forall₂ (t : Tick) (mouseX mouseY : ℚ) (R : Particle → Particle → Prop)
    (hR : ∀ k p, R p (updateParticle t mouseX mouseY k p).1) (ps : List Particle) :
    ∀ k, List.Forall₂ R ps (updateParticles t mouseX mouseY k ps) := by
  induction ps with
  | nil => intro k; exact List.Forall₂.nil
  | cons p rest ih =>
    intro k
    exact List.Forall₂.cons (hR k p) (ih _)

theorem forall₂_self {α : Type} (R : α → α → Prop) (hR : ∀ a, R a a) (xs : List α) :
    List.Forall₂ R xs xs := by
  induction xs with
  | nil => exact List.Forall₂.nil
  | cons a rest ih => exact List.Forall₂.cons (hR a) ih

/-- C11: a call of `update` neither inserts nor removes particles and changes only
position and opacity: the particle list keeps its length, and position by position each
particle keeps its type, radius, colour, both velocities, glow flag and phase; a particle
whose glow flag is false also keeps its opacity. -/
theorem update_keeps_particles (s : DeepSeaSystem) (t : Tick) :
    (update s t).1.particles.length = s.particles.length ∧
    List.Forall₂
      (fun p q => q.type = p.type ∧ q.r = p.r ∧ q.color = p.color ∧ q.vx = p.vx ∧
        q.vy = p.vy ∧ q.glow = p.glow ∧ q.phase = p.phase ∧
        (p.glow = false → q.opacity = p.opacity))
      s.particles (update s t).1.particles := by
  have h2 : List.Forall₂
      (fun p q => q.type = p.type ∧ q.r = p.r ∧ q.color = p.color ∧ q.vx = p.vx ∧
        q.vy = p.vy ∧ q.glow = p.glow ∧ q.phase = p.phase ∧
        (p.glow = false → q.opacity = p.opacity))
      s.particles (update s t).1.particles := by
    cases h : s.deepSeaActive with
    | false =>
      rw [update_inactive s t h]
      exact forall₂_self _ (fun a => ⟨rfl, rfl, rfl, rfl, rfl, rfl, rfl, fun _ => rfl⟩) _
    | true =>
      rw [update_active s t h]
      exact updateParticles_forall₂ t s.mouseX s.mouseY _
        (fun k p => updateParticle_keeps t s.mouseX s.mouseY k p) s.particles 0
  exact ⟨h2.length_eq.symm, h2⟩

/-- C13: while the system is inactive a call of `update` changes nothing and draws
nothing: particles, ripples, depth level and mouse position are as before and the call
returns before `draw`. -/
theorem inactive_update_does_nothing (s : DeepSeaSystem) (t : Tick)
    (h : s.deepSeaActive = false) :
    (update s t).1 = s ∧ (update s t).2 = none ∧
    (update s t).1.particles = s.particles ∧
    (update s t).1.clickWaves = s.clickWaves ∧
    (update s t).1.depthLevel = s.depthLevel ∧
    (update s t).1.mouseX = s.mouseX ∧ (update s t).1.mouseY = s.mouseY := by
  have hu : update s t = (s, none) := by
    unfold update
    rw [h]
    rfl
  rw [hu]
  exact ⟨rfl, rfl, rfl, rfl, rfl, rfl, rfl⟩

/-- Instance of C13: the busy sample system, made inactive, comes out of a tick as it
went in, with nothing drawn. -/
theorem inactive_update_does_nothing_witness :
    ({ busySea with deepSeaActive := false } : DeepSeaSystem).deepSeaActive = false ∧
    (update { busySea with deepSeaActive := false } sampleTick).1 =
      { busySea with deepSeaActive := false } ∧
    (update { busySea with deepSeaActive := false } sampleTick).2 = none :=
  ⟨rfl,
   (inactive_update_does_nothing { busySea with deepSeaActive := false } sampleTick rfl).1,
   (inactive_update_does_nothing { busySea with deepSeaActive := false } sampleTick rfl).2.1⟩

/-- Counterexample to C14 as stated: a click at (5, 7) on the system as constructed,
which is inactive, appends a ripple. -/
theorem inactive_click_spawns :
    new.deepSeaActive = false ∧ new.clickWaves = [] ∧
    (click new 5 7 0 0 0).1.clickWaves = [{ x := 5, y := 7, radius := 0, age := 0 }] := by
  refine ⟨rfl, rfl, ?_⟩
  norm_num [click, new]

/-- C14 amended: a click appends exactly one ripple with radius 0 and age 0 at the
position of the click relative to the region, and asks for the bubble sound exactly when
the master volume is positive, whether the system is active or not; it changes nothing
else. -/
theorem click_spawns_ripple (s : DeepSeaSystem)
    (clientX clientY rectLeft rectTop masterVolume : ℚ) :
    (click s clientX clientY rectLeft rectTop masterVolume).1.clickWaves =
      s.clickWaves ++
        [{ x := clientX - rectLeft, y := clientY - rectTop, radius := 0, age := 0 }] ∧
    ((click s clientX clientY rectLeft rectTop masterVolume).2 = true ↔ masterVolume > 0) ∧
    (click s clientX clientY rectLeft rectTop masterVolume).1 =
      { s with clickWaves := (click s clientX clientY rectLeft rectTop
          masterVolume).1.clickWaves } := by
  refine ⟨rfl, ?_, rfl⟩
  simp [click]

theorem wrapParticle_bounds (t : Tick) (k : Nat) (m : Particle) (hw : 0 < t.width)
    (hh : -40 ≤ t.height) (hr : ∀ n, 0 ≤ t.random n ∧ t.random n < 1) :
    -20 ≤ (wrapParticle t k m).1.x ∧ (wrapParticle t k m).1.x ≤ t.width + 20 ∧
    -20 ≤ (wrapParticle t k m).1.y := by
  have hy : -20 ≤ (wrapParticle t k m).1.y := by
    rw [wrapParticle_y]
    split
    · linarith
    · rename_i h; exact not_lt.mp h
  refine ⟨?_, ?_, hy⟩
  · unfold wrapParticle wrapSides
    simp only
    split
    · have := (random_scaled t hw hr (wrapTop t k m).2).1
      simp only
      linarith
    · rename_i h
      rw [not_or, not_lt] at h
      exact h.1
  · unfold wrapParticle wrapSides
    simp only
    split
    · have := (random_scaled t hw hr (wrapTop t k m).2).2
      simp only
      linarith
    · rename_i h
      rw [not_or] at h
      exact not_lt.mp h.2

theorem updateParticles_mem (t : Tick) (mouseX mouseY : ℚ) (ps : List Particle) :
    ∀ (k : Nat) (q : Particle), q ∈ updateParticles t mouseX mouseY k ps →
      ∃ j p, p ∈ ps ∧ q = (updateParticle t mouseX mouseY j p).1 := by
  induction ps with
  | nil => intro k q h; simp [updateParticles] at h
  | cons a rest ih =>
    intro k q h
    simp only [updateParticles, List.mem_cons] at h
    rcases h with h | h
    · exact ⟨k, a, List.mem_cons_self _ _, h⟩
    · obtain ⟨j, p, hp, hq⟩ := ih _ q h
      exact ⟨j, p, List.mem_cons_of_mem _ hp, hq⟩

/-- C17: after an active `update` in a window of positive width, with random draws in
[0, 1), every particle has `-20 ≤ x ≤ width + 20` and `y ≥ -20`, whatever its type,
position and velocity before and wherever the mouse is.  Window heights are never
negative; the proof needs only `height ≥ -40`. -/
theorem post_tick_bounds (s : DeepSeaSystem) (t : Tick) (ha : s.deepSeaActive = true)
    (hw : 0 < t.width) (hh : -40 ≤ t.height)
    (hr : ∀ n, 0 ≤ t.random n ∧ t.random n < 1) :
    ∀ q ∈ (update s t).1.particles, -20 ≤ q.x ∧ q.x ≤ t.width + 20 ∧ -20 ≤ q.y := by
  intro q hq
  rw [update_active s t ha] at hq
  obtain ⟨j, p, _, rfl⟩ := updateParticles_mem t s.mouseX s.mouseY s.particles 0 q hq
  obtain ⟨hx, hy⟩ := updateParticle_pos t s.mouseX s.mouseY j p
  rw [hx, hy]
  exact wrapParticle_bounds t j _ hw hh hr

/-- Instance of C17: after a tick of the busy sample system in the 800 by 400 window
its three particles are at (100.5, 100), (100, 499.7) and (400, 420), all within the
bounds. -/
theorem post_tick_bounds_witness :
    (busySea.deepSeaActive = true ∧ 0 < sampleTick.width ∧ -40 ≤ sampleTick.height ∧
      ∀ n, 0 ≤ sampleTick.random n ∧ sampleTick.random n < 1) ∧
    (update busySea sampleTick).1.particles.length = 3 ∧
    ∀ q ∈ (update busySea sampleTick).1.particles,
      -20 ≤ q.x ∧ q.x ≤ 820 ∧ -20 ≤ q.y := by
  have hw : 0 < sampleTick.width := by norm_num [sampleTick]
  have hh : -40 ≤ sampleTick.height := by norm_num [sampleTick]
  have hr : ∀ n, 0 ≤ sampleTick.random n ∧ sampleTick.random n < 1 := by
    intro n; norm_num [sampleTick]
  refine ⟨⟨rfl, hw, hh, hr⟩, ?_, ?_⟩
  · rw [update_active busySea sampleTick rfl]
    rfl
  · intro q hq
    have h := post_tick_bounds busySea sampleTick rfl hw hh hr q hq
    have e : sampleTick.width + 20 = 820 := by norm_num [sampleTick]
    rw [e] at h
    exact h

end DeepSeaSystem

/-! ## Deep sea: the particles created -/

namespace DeepSeaSystem

theorem createLoop_length (e : Setup) (type : String) (config : ParticleConfig) (n k : Nat) :
    (createLoop e type config n k).length = n := by
  induction n generalizing k with
  | zero => rfl
  | succ n ih => simp [createLoop, ih]

theorem createLoop_filter (e : Setup) (type ty : String) (config : ParticleConfig)
    (n k : Nat) :
    ((createLoop e type config n k).filter (fun p => decide (p.type = ty))).length =
      if type = ty then n else 0 := by
  induction n generalizing k with
  | zero => simp [createLoop]
  | succ n ih =>
    by_cases h : type = ty
    · have ih2 := ih (k + 8)
      rw [if_pos h] at ih2
      simp [createLoop, createParticle, h, List.filter_cons]
      simpa [h] using ih2
    · have ih2 := ih (k + 8)
      rw [if_neg h] at ih2
      simp [createLoop, createParticle, h, List.filter_cons]
      simpa [h] using ih2

theorem createAll_length (e : Setup) (types : List (String × ParticleConfig)) (k : Nat) :
    (createAll e types k).length = (types.map (fun c => c.2.count)).sum := by
  induction types generalizing k with
  | nil => rfl
  | cons c rest ih =>
    obtain ⟨type, config⟩ := c
    simp [createAll, createLoop_length, ih]

theorem createAll_filter (e : Setup) (types : List (String × ParticleConfig)) (ty : String)
    (k : Nat) :
    ((createAll e types k).filter (fun p => decide (p.type = ty))).length =
      ((types.filter (fun c => decide (c.1 = ty))).map (fun c => c.2.count)).sum := by
  induction types generalizing k with
  | nil => rfl
  | cons c rest ih =>
    obtain ⟨type, config⟩ := c
    simp only [createAll, List.filter_append, List.length_append, createLoop_filter, ih,
      List.filter_cons]
    by_cases h : type = ty
    · simp [h]
    · simp [h]

/-- C12: on an empty pool `initDeepSea` leaves exactly 65 particles, 30 of type
`bubbles`, 15 of type `bioluminescent` and 20 of type `debris`, whatever the random draws
and the window size; for any table, the particles of a type are as many as the `count`
of the entries of that name. -/
theorem initDeepSea_counts (s : DeepSeaSystem) (e : Setup) (h : s.particles = []) :
    (initDeepSea s e).particles.length = 65 ∧
    ((initDeepSea s e).particles.filter (fun p => decide (p.type = "bubbles"))).length = 30 ∧
    ((initDeepSea s e).particles.filter
      (fun p => decide (p.type = "bioluminescent"))).length = 15 ∧
    ((initDeepSea s e).particles.filter (fun p => decide (p.type = "debris"))).length = 20 ∧
    (∀ (types : List (String × ParticleConfig)) (ty : String),
      ((initParticles s e types).particles.filter (fun p => decide (p.type = ty))).length =
        ((types.filter (fun c => decide (c.1 = ty))).map (fun c => c.2.count)).sum) := by
  have hgen : ∀ (types : List (String × ParticleConfig)) (ty : String),
      ((initParticles s e types).particles.filter (fun p => decide (p.type = ty))).length =
        ((types.filter (fun c => decide (c.1 = ty))).map (fun c => c.2.count)).sum := by
    intro types ty
    simp only [initParticles, h, List.nil_append]
    exact createAll_filter e types ty 0
  refine ⟨?_, ?_, ?_, ?_, hgen⟩
  · simp only [initDeepSea, initParticles, h, List.nil_append, createAll_length]
    rfl
  · rw [initDeepSea, hgen]; rfl
  · rw [initDeepSea, hgen]; rfl
  · rw [initDeepSea, hgen]; rfl

/-- Instance of C12 on the system as constructed: 65 particles, 15 of them
bioluminescent. -/
theorem initDeepSea_counts_witness :
    new.particles = [] ∧
    (initDeepSea new sampleSetup).particles.length = 65 ∧
    ((initDeepSea new sampleSetup).particles.filter
      (fun p => decide (p.type = "bioluminescent"))).length = 15 :=
  ⟨rfl, (initDeepSea_counts new sampleSetup rfl).1,
    (initDeepSea_counts new sampleSetup rfl).2.2.1⟩

end DeepSeaSystem

/-! ## Navigation: section visibility -/

namespace OceanExplorer

theorem get_set_same (doc : Document) (k : String) (el : SectionElement)
    (h : (getElementById doc k).isSome) :
    getElementById (setElement doc k el) k = some el := by
  induction doc with
  | nil => simp [getElementById] at h
  | cons a rest ih =>
    obtain ⟨key, old⟩ := a
    by_cases hk : key = k
    · simp [setElement, getElementById, hk]
    · simp only [getElementById, hk, if_false] at h
      simp [setElement, getElementById, hk, ih h]

theorem get_set_other (doc : Document) (k k2 : String) (el : SectionElement)
    (h : k ≠ k2) :
    getElementById (setElement doc k el) k2 = getElementById doc k2 := by
  induction doc with
  | nil => rfl
  | cons a rest ih =>
    obtain ⟨key, old⟩ := a
    by_cases hk : key = k
    · have hk2 : ¬ key = k2 := by rw [hk]; exact h
      simp [setElement, getElementById, hk, h]
    · by_cases hk2 : key = k2
      · subst hk2
        simp [setElement, getElementById, hk]
      · simp [setElement, getElementById, hk, hk2, ih]

theorem get_set_isSome (doc : Document) (k k2 : String) (el : SectionElement)
    (h : (getElementById doc k2).isSome) :
    (getElementById (setElement doc k el) k2).isSome := by
  by_cases hk : k = k2
  · subst hk
    rw [get_set_same doc k el h]
    rfl
  · rw [get_set_other doc k k2 el hk]
    exact h

theorem hideSections_spec (ids : List String) :
    ∀ doc : Document,
      (∀ sid ∈ ids, sid ≠ "intro" → (getElementById doc sid).isSome) →
      ∃ doc2, hideSections ids doc = .ok doc2 ∧
        (∀ k ∈ ids, k ≠ "intro" →
          ∃ el, getElementById doc2 k = some el ∧ el.hidden = true ∧ el.opacity = some 0) ∧
        (∀ k, (k ∉ ids ∨ k = "intro") → getElementById doc2 k = getElementById doc k) ∧
        (∀ k, (getElementById doc k).isSome → (getElementById doc2 k).isSome) := by
  induction ids with
  | nil =>
    intro doc _
    exact ⟨doc, rfl, by intro k hk; simp at hk, fun _ _ => rfl, fun _ h => h⟩
  | cons sid rest ih =>
    intro doc hall
    by_cases hi : sid = "intro"
    · obtain ⟨doc2, h1, h2, h3, h4⟩ :=
        ih doc (fun x hx hne => hall x (List.mem_cons_of_mem _ hx) hne)
      refine ⟨doc2, ?_, ?_, ?_, h4⟩
      · simp only [hideSections, hi, ne_eq, not_true_eq_false, if_false]
        exact h1
      · intro k hk hne
        rcases List.mem_cons.mp hk with hks | hkr
        · exact absurd (hks.trans hi) hne
        · exact h2 k hkr hne
      · intro k hk
        apply h3
        rcases hk with hk | hk
        · left
          exact fun hm => hk (List.mem_cons_of_mem _ hm)
        · right; exact hk
    · have hsome := hall sid (List.mem_cons_self _ _) hi
      obtain ⟨el, hel⟩ := Option.isSome_iff_exists.mp hsome
      obtain ⟨doc2, h1, h2, h3, h4⟩ :=
        ih (setElement doc sid { el with hidden := true, opacity := some 0 })
          (fun x hx hne => get_set_isSome doc sid x _
            (hall x (List.mem_cons_of_mem _ hx) hne))
      refine ⟨doc2, ?_, ?_, ?_, ?_⟩
      · simp only [hideSections, ne_eq, hi, not_false_eq_true, if_true, hel]
        exact h1
      · intro k hk hne
        by_cases hkr : k ∈ rest
        · exact h2 k hkr hne
        · have hks : k = sid := by
            rcases List.mem_cons.mp hk with h | h
            · exact h
            · exact absurd h hkr
          subst hks
          refine ⟨{ el with hidden := true, opacity := some 0 }, ?_, rfl, rfl⟩
          rw [h3 k (Or.inl hkr)]
          exact get_set_same doc k _ hsome
      · intro k hk
        have hne : sid ≠ k := by
          rcases hk with hk | hk
          · exact fun h => hk (h ▸ List.mem_cons_self _ _)
          · rw [hk]; exact hi
        have hk2 : k ∉ rest ∨ k = "intro" := by
          rcases hk with hk | hk
          · left
            exact fun hm => hk (List.mem_cons_of_mem _ hm)
          · right; exact hk
        rw [h3 k hk2]
        exact get_set_other doc sid k _ hne
      · intro k hk
        exact h4 k (get_set_isSome doc sid k _ hk)

/-- C15: on a page that has the seven section elements, `showSection(id)` for any of the
seven ids completes, and after it the target is not hidden, every section other than
`intro` and the target is hidden with opacity 0, and the hidden flag of `intro` is
cleared when `intro` is the target and otherwise left as it was, so it is never set. -/
theorem showSection_visibility (s : OceanExplorer) (id : String) (hid : id ∈ sections)
    (hall : ∀ sid ∈ sections, (getElementById s.document sid).isSome) :
    ∃ s2, showSection s id = .ok s2 ∧
      (∃ el, getElementById s2.document id = some el ∧ el.hidden = false) ∧
      (∀ sid ∈ sections, sid ≠ "intro" → sid ≠ id →
        ∃ el, getElementById s2.document sid = some el ∧ el.hidden = true ∧
          el.opacity = some 0) ∧
      (∃ before after, getElementById s.document "intro" = some before ∧
        getElementById s2.document "intro" = some after ∧
        after.hidden = (if id = "intro" then false else before.hidden) ∧
        (after.hidden = true → before.hidden = true)) := by
  obtain ⟨doc2, h1, h2, h3, h4⟩ :=
    hideSections_spec sections s.document (fun sid hs _ => hall sid hs)
  have htarget := h4 id (hall id hid)
  obtain ⟨target, ht⟩ := Option.isSome_iff_exists.mp htarget
  refine ⟨{ s with
      document := setElement doc2 id { target with hidden := false }
      pendingReveals := s.pendingReveals ++ [id]
      transitionSounds := s.transitionSounds + 1 }, ?_, ?_, ?_, ?_⟩
  · unfold showSection
    rw [h1]
    simp only [ht]
  · exact ⟨{ target with hidden := false }, get_set_same doc2 id _ htarget, rfl⟩
  · intro sid hs hne hne2
    obtain ⟨el, he1, he2, he3⟩ := h2 sid hs hne
    refine ⟨el, ?_, he2, he3⟩
    simp only
    rw [get_set_other doc2 id sid _ (Ne.symm hne2)]
    exact he1
  · have hintro : "intro" ∈ sections := by decide
    obtain ⟨before, hb⟩ := Option.isSome_iff_exists.mp (hall "intro" hintro)
    have hkeep : getElementById doc2 "intro" = some before := by
      rw [h3 "intro" (Or.inr rfl)]; exact hb
    by_cases hi : id = "intro"
    · refine ⟨before, { target with hidden := false }, hb, ?_, ?_, ?_⟩
      · simp only
        rw [← hi]
        exact get_set_same doc2 id _ htarget
      · simp [hi]
      · intro h; cases h
    · refine ⟨before, before, hb, ?_, ?_, fun h => h⟩
      · simp only
        rw [get_set_other doc2 id "intro" _ hi]
        exact hkeep
      · simp [hi]

/-- Instance of C15: on the sample page, `showSection("quiz")` leaves `quiz` shown,
`gallery` hidden with opacity 0 and `intro` not hidden. -/
theorem showSection_visibility_witness :
    ("quiz" ∈ sections ∧
      ∀ sid ∈ sections, (getElementById (initial samplePage 7).document sid).isSome) ∧
    ∃ s2, showSection (initial samplePage 7) "quiz" = .ok s2 ∧
      (∃ el, getElementById s2.document "quiz" = some el ∧ el.hidden = false) ∧
      (∃ el, getElementById s2.document "gallery" = some el ∧ el.hidden = true ∧
        el.opacity = some 0) ∧
      (∃ el, getElementById s2.document "intro" = some el ∧ el.hidden = false) := by
  have hq : "quiz" ∈ sections := by decide
  have hall : ∀ sid ∈ sections,
      (getElementById (initial samplePage 7).document sid).isSome := by decide
  obtain ⟨s2, h1, h2, h3, before, after, hb, ha, hflag, _⟩ :=
    showSection_visibility (initial samplePage 7) "quiz" hq hall
  refine ⟨⟨hq, hall⟩, s2, h1, h2, h3 "gallery" (by decide) (by decide) (by decide),
    after, ha, ?_⟩
  have hbefore : before.hidden = false := by
    have : getElementById (initial samplePage 7).document "intro" =
        some { hidden := false, opacity := none, transform := none } := by decide
    rw [this] at hb
    cases hb
    rfl
  rw [hflag, if_neg (by decide), hbefore]

end OceanExplorer

/-! ## Quiz: the score -/

namespace QuizSystem

theorem questionAt_some (i : Int) (q : Question) (h : questionAt i = some q) : i < 10 := by
  unfold questionAt at h
  split at h
  · rename_i h0
    have hlt := (List.get?_eq_some.mp h).1
    have hlen : questions.length = 10 := rfl
    rw [hlen] at hlt
    omega
  · cases h

theorem handle_score_bound (page : Page) (s : QuizSystem) (ev : Event)
    (h : 0 ≤ s.score ∧ s.score ≤ 10 ∧
      s.score ≤ s.currentQuestionIndex + (if s.quizActive then 0 else 1)) :
    0 ≤ (OceanExplorer.stateOf (handle page s ev)).score ∧
    (OceanExplorer.stateOf (handle page s ev)).score ≤ 10 ∧
    (OceanExplorer.stateOf (handle page s ev)).score ≤
      (OceanExplorer.stateOf (handle page s ev)).currentQuestionIndex +
        (if (OceanExplorer.stateOf (handle page s ev)).quizActive then 0 else 1) := by
  obtain ⟨h0, h10, hidx⟩ := h
  cases ev with
  | startQuiz =>
    simp only [handle, startQuiz]
    split_ifs <;> simp [OceanExplorer.stateOf]
  | selectAnswer sel =>
    simp only [handle, selectAnswer]
    cases ha : s.quizActive with
    | false =>
      simp only [Bool.not_false, if_true, OceanExplorer.stateOf]
      rw [ha] at hidx
      exact ⟨h0, h10, by rw [ha]; exact hidx⟩
    | true =>
      rw [ha] at hidx
      simp only [if_true, add_zero] at hidx
      simp only [Bool.not_true, Bool.false_eq_true, if_false]
      cases hq : questionAt s.currentQuestionIndex with
      | none =>
        simp only [OceanExplorer.stateOf, Bool.false_eq_true, if_false]
        exact ⟨h0, h10, by omega⟩
      | some q =>
        have hlt := questionAt_some _ q hq
        simp only
        by_cases hs : sel = some q.correct
        · simp only [hs, if_true, OceanExplorer.stateOf, Bool.false_eq_true, if_false]
          omega
        · simp only [hs, if_false, OceanExplorer.stateOf, Bool.false_eq_true]
          omega
  | nextQuestion =>
    have hle : s.score ≤ s.currentQuestionIndex + 1 := by
      split_ifs at hidx <;> omega
    simp only [handle, nextQuestion]
    by_cases h1 : s.currentQuestionIndex + 1 < (questions.length : Int)
    · by_cases h2 : showQuestion page
          { s with currentQuestionIndex := s.currentQuestionIndex + 1 } = true
      · simp only [h1, h2, if_true, OceanExplorer.stateOf]
        omega
      · simp only [h1, h2, if_true, if_false, OceanExplorer.stateOf, Bool.false_eq_true]
        refine ⟨h0, h10, ?_⟩
        (try split_ifs) <;> omega
    · by_cases h3 : showQuizResults page = true
      · simp only [h1, h3, if_true, if_false, OceanExplorer.stateOf]
        refine ⟨h0, h10, ?_⟩
        (try split_ifs) <;> omega
      · simp only [h1, h3, if_false, OceanExplorer.stateOf, Bool.false_eq_true]
        refine ⟨h0, h10, ?_⟩
        (try split_ifs) <;> omega
  | restartQuiz =>
    simp only [handle, restartQuiz]
    by_cases hp : (page.quizQuestion && page.quizAnswers && page.quizScore &&
        page.restartQuiz && page.startQuiz) = true
    · simp [hp, OceanExplorer.stateOf]
    · simp only [hp, if_false, OceanExplorer.stateOf, Bool.false_eq_true]
      exact ⟨h0, h10, hidx⟩

theorem run_score_bound (page : Page) (events : List Event) (s : QuizSystem)
    (h : 0 ≤ s.score ∧ s.score ≤ 10 ∧
      s.score ≤ s.currentQuestionIndex + (if s.quizActive then 0 else 1)) :
    0 ≤ (run page s events).score ∧ (run page s events).score ≤ 10 ∧
    (run page s events).score ≤ (run page s events).currentQuestionIndex +
      (if (run page s events).quizActive then 0 else 1) := by
  induction events generalizing s with
  | nil => exact h
  | cons ev rest ih =>
    simp only [run, List.foldl_cons]
    exact ih _ (handle_score_bound page s ev h)

/-- C16: in every state reached from the constructed quiz by any sequence of
`startQuiz`, `selectAnswer` with any selected index, `nextQuestion` and `restartQuiz`, on
any page, the score satisfies `0 ≤ score ≤ 10`, the number of questions, and
`score ≤ currentQuestionIndex + 1`; and `selectAnswer` while `quizActive` is false
returns with the state untouched. -/
theorem quiz_score_bounded (page : Page) (events : List Event) :
    (questions.length : Int) = 10 ∧
    0 ≤ (run page new events).score ∧
    (run page new events).score ≤ (questions.length : Int) ∧
    (run page new events).score ≤ (run page new events).currentQuestionIndex + 1 ∧
    (∀ (s : QuizSystem) (selectedIndex : Option Int), s.quizActive = false →
      selectAnswer s selectedIndex = .ok s) := by
  obtain ⟨h0, h10, hidx⟩ := run_score_bound page events new (by decide)
  refine ⟨rfl, h0, h10, ?_, ?_⟩
  · split_ifs at hidx <;> omega
  · intro s sel hs
    simp [selectAnswer, hs]

/-- Instance of C16 on the full page: start, a right answer, a second click on an answer
(ignored), next, a wrong answer, next: the score is 1 at question index 2. -/
theorem quiz_score_bounded_witness :
    run fullPage new
      [.startQuiz, .selectAnswer (some 1), .selectAnswer (some 1), .nextQuestion,
        .selectAnswer (some 0), .nextQuestion] =
      { currentQuestionIndex := 2, score := 1, quizActive := true } ∧
    (run fullPage new
      [.startQuiz, .selectAnswer (some 1), .selectAnswer (some 1), .nextQuestion,
        .selectAnswer (some 0), .nextQuestion]).score ≤ 10 :=
  ⟨by decide,
   (quiz_score_bounded fullPage
      [.startQuiz, .selectAnswer (some 1), .selectAnswer (some 1), .nextQuestion,
        .selectAnswer (some 0), .nextQuestion]).2.2.1⟩

end QuizSystem
